import Mathlib

/-
  Verification development for the reranker repository
  (src/reranker.js, src/unnamed/part_000 = test-suite.js).

  Shallow embedding conventions:
  * JavaScript objects are modelled as ordered association lists
    `List (String × α)`; property write `o[k] = v` updates the first
    binding in place when the key exists, else appends (`objInsert`),
    which matches JS object key-insertion order semantics.
    Spread `{a, b, ...o}` inserts every binding of `o` in order
    after the literal bindings (`objSpread`), so a key of `o` that
    collides with a literal key overwrites its value.
  * Document values (strings / numbers) are `DocVal`; scores on the
    orchestration side are `ℚ` (exact stand-in for JS doubles;
    the claims proved on this side are purely order/structure facts).
    The normalization layer (sigmoid/softmax) is embedded over `ℝ`.
  * The scoring backend (tokenizer + model forward pass,
    `@xenova/transformers`) is external to the repository; `rerank` is
    therefore parameterized by a `Backend` that receives exactly the
    `[query, text]` pairs built in reranker.js lines 500-503 and
    returns scores or an error (a rejected promise).  `mkBackend f`
    is a deterministic elementwise backend, the "deterministic
    scoring backend" of the spec.
  * `Array.prototype.sort` with comparator `(a, b) => b._rerank_score -
    a._rerank_score` (reranker.js line 525) is required by ES2019 to be a
    stable sort; any stable sort for a total preorder comparator produces
    the same output list, so it is embedded as a stable insertion sort
    (`List.insertionSort` with the "score not below" relation).
-/

/-- Lookup of a JS object property: first binding wins (keys are unique
in objects produced by JS, but the model tolerates duplicates). -/
def objLookup {α : Type} (m : List (String × α)) (k : String) : Option α :=
  (m.find? (fun p => p.1 == k)).map (fun p => p.2)

/-- JS property write `m[k] = v`: overwrite in place when present, else
append (JS key-insertion order). -/
def objInsert {α : Type} (m : List (String × α)) (k : String) (v : α) :
    List (String × α) :=
  if m.any (fun p => p.1 == k) then
    m.map (fun p => if p.1 == k then (k, v) else p)
  else m ++ [(k, v)]

/-- JS `Map.delete` / property removal. -/
def objRemove {α : Type} (m : List (String × α)) (k : String) :
    List (String × α) :=
  m.filter (fun p => !(p.1 == k))

/-- JS spread `{...base, ...fs}` tail: insert each binding of `fs`, in
order, into `base`. -/
def objSpread {α : Type} (base fs : List (String × α)) : List (String × α) :=
  fs.foldl (fun acc p => objInsert acc p.1 p.2) base

/-- A primitive JS value stored in a document field or result field. -/
inductive DocVal : Type
  | str (s : String)
  | num (q : ℚ)
deriving DecidableEq, Repr

/-- An input document of `rerank`: a raw string or a record object
(reranker.js lines 424-427). -/
inductive Document : Type
  | str (s : String)
  | record (fields : List (String × DocVal))
deriving DecidableEq, Repr

/-- A JS object produced by the pipeline. -/
abbrev JsObj : Type := List (String × DocVal)

/-- `typeof doc === 'string' ? doc : doc.text` (reranker.js line 501):
the passage text handed to the backend; `none` models `undefined`. -/
def jsText : Document → Option DocVal
  | .str s => some (.str s)
  | .record fields => objLookup fields "text"

/-- One output object of reranker.js lines 511-516:
`{_rerank_corpus_id: originalIndex, _rerank_score: result.score,
...(typeof documents[originalIndex] === 'string' ? {text: ...} :
documents[originalIndex])}`.  `doc = none` models
`documents[originalIndex]` being `undefined` (spreading `undefined`
adds no fields). -/
def buildResult (idx : ℕ) (score : ℚ) (doc : Option Document) : JsObj :=
  objSpread [("_rerank_corpus_id", .num (idx : ℚ)), ("_rerank_score", .num score)]
    (match doc with
     | some (.str s) => [("text", .str s)]
     | some (.record fields) => fields
     | none => [])

/-- The value the sort comparator reads: the `_rerank_score` property of
the built object (which a caller-supplied field of the same name may
have overwritten).  A non-numeric or absent value would make the JS
comparator return `NaN` (behaviour outside the spec); it is mapped to 0. -/
def scoreKey (o : JsObj) : ℚ :=
  match objLookup o "_rerank_score" with
  | some (.num q) => q
  | _ => 0

/-- The `_rerank_corpus_id` property of a result object. -/
def corpusIdKey (o : JsObj) : Option DocVal :=
  objLookup o "_rerank_corpus_id"

/-- The scoring backend boundary: receives the `[query, text]` pairs of
one batch (`getScores(queryDocPairs)`, reranker.js line 506) and either
returns the scores or fails (rejected promise / thrown error). -/
abbrev Backend : Type := List (String × Option DocVal) → Except String (List ℚ)

/-- A deterministic elementwise backend: pair `(q, t)` always scores
`f q t`.  This is the "deterministic scoring backend" of the spec. -/
def mkBackend (f : String → Option DocVal → ℚ) : Backend :=
  fun pairs => .ok (pairs.map (fun p => f p.1 p.2))

/-- A deterministic backend that meets the §6/§7 boundary contract for
malformed input: a pair whose passage is `undefined` (no extractable
text) makes the batch fail. -/
def strictBackend (f : String → Option DocVal → ℚ) : Backend :=
  fun pairs =>
    if pairs.any (fun p => p.2.isNone) then .error "malformed document"
    else .ok (pairs.map (fun p => f p.1 p.2))

/-- `chunkScores.map((result, j) => ({...}))` of reranker.js lines
509-517: build the result objects of one chunk, indexing back into the
full `documents` array at `originalIndex = chunkStart + j`. -/
def buildChunk (documents : List Document) : ℕ → List ℚ → List JsObj
  | _, [] => []
  | idx, s :: ss =>
      buildResult idx s (documents.get? idx) :: buildChunk documents (idx + 1) ss

/-- The batching loop of reranker.js lines 491-520: take a chunk of
`batchSize` documents, score it, build its results, recurse on the rest
with the start index advanced by `batchSize`; any backend error aborts
the whole call (the `try`/`catch` rethrows).  For `batchSize ≥ 1` the
chunk is `rem.take batchSize` and the rest is `rem.drop batchSize`
(written through the head so the recursion always consumes at least one
document; the source loop does not terminate for `batchSize = 0`, a
value the spec rules out). -/
def processBatches (backend : Backend) (q : String) (documents : List Document)
    (batchSize : ℕ) : ℕ → List Document → Except String (List JsObj)
  | _, [] => .ok []
  | chunkStart, d :: rest =>
      let chunk := d :: rest.take (batchSize - 1)
      let queryDocPairs := chunk.map (fun doc => (q, jsText doc))
      match backend queryDocPairs with
      | .error e => .error e
      | .ok chunkScores =>
          match processBatches backend q documents batchSize
              (chunkStart + batchSize) (rest.drop (batchSize - 1)) with
          | .error e => .error e
          | .ok tail => .ok (buildChunk documents chunkStart chunkScores ++ tail)
termination_by _ rem => rem.length
decreasing_by simp [List.length_drop]; omega

/-- `allResults` after the batching loop: all chunk results concatenated
in batch order (reranker.js lines 488-520). -/
def mergedResults (backend : Backend) (q : String) (documents : List Document)
    (batchSize : ℕ) : Except String (List JsObj) :=
  processBatches backend q documents batchSize 0 documents

/-- The comparator relation of reranker.js line 525 read as "a sorts no
later than b": `b._rerank_score - a._rerank_score ≤ 0`. -/
def scoreGE (a b : JsObj) : Prop := scoreKey b ≤ scoreKey a

instance : DecidableRel scoreGE :=
  fun a b => inferInstanceAs (Decidable (scoreKey b ≤ scoreKey a))

instance : IsTotal JsObj scoreGE := ⟨fun a b => le_total (scoreKey b) (scoreKey a)⟩

instance : IsTrans JsObj scoreGE := ⟨fun _ _ _ h1 h2 => le_trans h2 h1⟩

/-- The stable descending sort of reranker.js line 525. -/
def sortByScoreDesc (l : List JsObj) : List JsObj :=
  List.insertionSort scoreGE l

/-- `rerank(query, documents, {topK, batchSize})`, reranker.js lines
473-540.  Defaults in the source are `topK = 4`, `batchSize = 128`;
empty input returns `[]` before any backend call; otherwise the merged
batch results are sorted descending by `_rerank_score` and sliced to
`topK`. -/
def rerank (backend : Backend) (q : String) (documents : List Document)
    (topK batchSize : ℕ) : Except String (List JsObj) :=
  if documents.isEmpty then .ok []
  else
    (mergedResults backend q documents batchSize).map
      (fun allResults => (sortByScoreDesc allResults).take topK)

/-- The merged results a deterministic backend must produce: one result
object per document, built in input order with `corpus_id = index`.
Used as the batching-independent normal form of `mergedResults`. -/
def idealMerged (f : String → Option DocVal → ℚ) (q : String) :
    ℕ → List Document → List JsObj
  | _, [] => []
  | i, d :: ds =>
      buildResult i (f q (jsText d)) (some d) :: idealMerged f q (i + 1) ds

/-
  ModelLoader (reranker.js lines 37-124) as a cooperative-concurrency
  state machine.  JS is single threaded: each `ModelLoader.initialize()`
  call runs its synchronous head (the two cache checks and, on a miss,
  the creation and registration of the loading promise) atomically, then
  suspends.  `ensureLoadedCall` is that synchronous head; a pending
  promise is identified by a load id, and `completeLoad` is the event of
  the load promise settling (the promise body stores the model/tokenizer
  pair on success and in both cases deletes the in-flight promise in its
  `finally` block, lines 104-118).
-/

/-- The shared per-process cache of ModelLoader: `#models` /
`#tokenizers` (one entry stands for the pair), `#initializationPromises`
(key → pending load id), plus a log of backend loads actually started,
used to count loads. -/
structure CacheState : Type where
  models : List (String × ℕ)
  inflight : List (String × ℕ)
  nextLoadId : ℕ
  loads : List (String × ℕ)
deriving DecidableEq, Repr

/-- What one `initialize()` caller observes synchronously. -/
inductive CallOutcome : Type
  | cachedHit (entry : ℕ)
  | waiting (lid : ℕ)
  | started (lid : ℕ)
deriving DecidableEq, Repr

def initState : CacheState := ⟨[], [], 0, []⟩

/-- The synchronous head of `ModelLoader.initialize()` (lines 76-124):
already loaded → return; already in flight → await that promise;
otherwise create the promise (issuing one backend load) and register it. -/
def ensureLoadedCall (k : String) (s : CacheState) : CallOutcome × CacheState :=
  match objLookup s.models k with
  | some e => (.cachedHit e, s)
  | none =>
    match objLookup s.inflight k with
    | some lid => (.waiting lid, s)
    | none =>
      (.started s.nextLoadId,
       { models := s.models,
         inflight := objInsert s.inflight k s.nextLoadId,
         nextLoadId := s.nextLoadId + 1,
         loads := s.loads ++ [(k, s.nextLoadId)] })

/-- Result of the backend load promise settling. -/
inductive LoadResult : Type
  | ok (entry : ℕ)
  | err
deriving DecidableEq, Repr

/-- The promise body finishing (lines 90-119): on success the entry is
stored in `#models`/`#tokenizers`; in both cases the `finally` block
deletes the in-flight promise.  Every caller holding this load id is
resumed with the same settlement. -/
def completeLoad (k : String) (res : LoadResult) (s : CacheState) : CacheState :=
  match res with
  | .ok e => { s with models := objInsert s.models k e,
                      inflight := objRemove s.inflight k }
  | .err => { s with inflight := objRemove s.inflight k }

/-- A burst of `initialize()` calls, all of whose synchronous heads run
before any load settles (the "issued before the first completes"
scenario); returns each call's observation tagged with its key. -/
def processCalls (calls : List String) (s : CacheState) :
    List (String × CallOutcome) × CacheState :=
  match calls with
  | [] => ([], s)
  | k :: rest =>
    let r := ensureLoadedCall k s
    let rs := processCalls rest r.2
    ((k, r.1) :: rs.1, rs.2)

/-
  Score normalization (ModelLoader.getScores, reranker.js lines
  155-209).  Tokenization and the model forward pass are the external
  backend; what the repository owns is the choice of transform from the
  logits shape `[n, c]` and the model's `id2label` map.  JS object keys
  of `id2label` are the stringified class indices, which JS enumerates
  in ascending integer order; the map is embedded as an ascending
  `List (ℕ × String)`.  Floating-point `Math.exp` is idealised as real
  `exp`.
-/

/-- `/relevant|positive/i.test(label)` (line 161): case-insensitive
substring search. -/
def charsContain (pat : List Char) : List Char → Bool
  | [] => pat.isEmpty
  | c :: cs => pat.isPrefixOf (c :: cs) || charsContain pat cs

def labelIsPositive (label : String) : Bool :=
  charsContain "relevant".data (label.data.map Char.toLower) ||
  charsContain "positive".data (label.data.map Char.toLower)

/-- `Number(Object.keys(id2label).find(key => /relevant|positive/i.test(
id2label[key])) ?? 1)` (lines 159-163): index of the first label
matching the pattern, defaulting to 1. -/
def positiveClassIndex (id2label : List (ℕ × String)) : ℕ :=
  match id2label.find? (fun p => labelIsPositive p.2) with
  | some p => p.1
  | none => 1

noncomputable def sigmoid (x : ℝ) : ℝ := 1 / (1 + Real.exp (-x))

/-- `softmax` (lines 131-135); a row is never empty in a `[n, c]`
logits tensor with `c ≥ 1` (on `[]` the JS `reduce` would throw). -/
noncomputable def softmax (arr : List ℝ) : List ℝ :=
  (arr.map Real.exp).map (fun e => e / (arr.map Real.exp).sum)

/-- The normalization step of `getScores` (lines 180-201) on the raw
logits matrix `logitsData` of shape `[n, numCols]`: one column →
sigmoid of the single logit; several columns → softmax of the row,
probability at the positive class index (`row[i]` out of range would be
`undefined`; mapped to 0, unreachable for well-formed metadata). -/
noncomputable def applyScoreNormalization (id2label : List (ℕ × String))
    (numCols : ℕ) (logitsData : List (List ℝ)) : List ℝ :=
  if numCols = 1 then
    logitsData.map (fun row => sigmoid (row.headD 0))
  else
    logitsData.map (fun row => (softmax row).getD (positiveClassIndex id2label) 0)

/-
  EvaluationMetrics (test-suite.js lines 27-213).  A ranked passage is
  reduced to its `isRelevant` flag; all metric values are reals.
-/

noncomputable def calculateMRR (rankedPassages : List Bool) (k : ℕ) : ℝ :=
  let relevantRanks :=
    (List.range (min rankedPassages.length k)).filterMap
      (fun i => if rankedPassages.getD i false then some (i + 1) else none)
  match relevantRanks with
  | [] => 0
  | r :: _ => 1 / (r : ℝ)

noncomputable def calculateDCG (rankedPassages : List Bool) (k : ℕ) : ℝ :=
  (List.range (min rankedPassages.length k)).foldl
    (fun dcg i =>
      let relevance : ℝ := if rankedPassages.getD i false then 1 else 0
      if i = 0 then dcg + relevance
      else dcg + relevance / Real.logb 2 ((i : ℝ) + 1))
    0

noncomputable def calculateIDCG (rankedPassages : List Bool) (k : ℕ) : ℝ :=
  let relevantCount := (rankedPassages.filter (fun b => b)).length
  (List.range (min relevantCount k)).foldl
    (fun idcg i =>
      if i = 0 then idcg + 1
      else idcg + 1 / Real.logb 2 ((i : ℝ) + 1))
    0

noncomputable def calculateNDCG (rankedPassages : List Bool) (k : ℕ) : ℝ :=
  let dcg := calculateDCG rankedPassages k
  let idcg := calculateIDCG rankedPassages k
  if idcg > 0 then dcg / idcg else 0

noncomputable def calculatePrecisionAtK (rankedPassages : List Bool) (k : ℕ) : ℝ :=
  if k = 0 ∨ rankedPassages.length = 0 then 0
  else
    let topK := rankedPassages.take (min k rankedPassages.length)
    ((topK.filter (fun b => b)).length : ℝ) / (min k rankedPassages.length : ℝ)

noncomputable def calculateRecallAtK (rankedPassages : List Bool) (k : ℕ) : ℝ :=
  let totalRelevant := (rankedPassages.filter (fun b => b)).length
  if totalRelevant = 0 then 0
  else
    let topK := rankedPassages.take (min k rankedPassages.length)
    ((topK.filter (fun b => b)).length : ℝ) / (totalRelevant : ℝ)

/-- `calculateAllMetrics` (lines 152-163): the four metrics at each
requested k, keys in insertion order. -/
noncomputable def calculateAllMetrics (rankedPassages : List Bool)
    (kValues : List ℕ) : List (String × ℝ) :=
  kValues.foldl
    (fun metrics k =>
      objInsert
        (objInsert
          (objInsert
            (objInsert metrics ("MRR@" ++ toString k)
              (calculateMRR rankedPassages k))
            ("NDCG@" ++ toString k) (calculateNDCG rankedPassages k))
          ("Precision@" ++ toString k) (calculatePrecisionAtK rankedPassages k))
        ("Recall@" ++ toString k) (calculateRecallAtK rankedPassages k))
    []

/-- `metricSums[metricName] += value` (line 197); the key always exists
(the sums were initialised with exactly the metric names); on a missing
key JS would produce `NaN`, modelled as a plain insert (unreachable). -/
def objAdd (m : List (String × ℝ)) (k : String) (v : ℝ) : List (String × ℝ) :=
  if m.any (fun p => p.1 == k) then
    m.map (fun p => if p.1 == k then (p.1, p.2 + v) else p)
  else m ++ [(k, v)]

/-- One query entry of `calculateAverageMetrics`: an `error` mark (truthy
`result.error`) or the ranked passages to evaluate. -/
structure QueryResult : Type where
  error : Bool
  rankedPassages : List Bool

/-- The three distinguishable shapes returned by
`calculateAverageMetrics` (lines 171-212): `{}` on empty input, the
`{error: 'No valid results to calculate metrics'}` object when every
entry errored, or the average metrics plus query counts. -/
inductive AvgResult : Type
  | empty
  | noValid
  | metrics (m : List (String × ℝ)) (totalQueries validQueries errorQueries : ℕ)

noncomputable def calculateAverageMetrics (queryResults : List QueryResult)
    (kValues : List ℕ) : AvgResult :=
  if queryResults.length = 0 then .empty
  else
    let validResults := queryResults.filter (fun r => !r.error)
    if validResults.length = 0 then .noValid
    else
      let metricSums₀ :=
        kValues.foldl
          (fun m k =>
            objInsert
              (objInsert
                (objInsert
                  (objInsert m ("MRR@" ++ toString k) 0)
                  ("NDCG@" ++ toString k) 0)
                ("Precision@" ++ toString k) 0)
              ("Recall@" ++ toString k) 0)
          []
      let metricSums :=
        validResults.foldl
          (fun sums r =>
            (calculateAllMetrics r.rankedPassages kValues).foldl
              (fun s p => objAdd s p.1 p.2) sums)
          metricSums₀
      let averageMetrics :=
        metricSums.foldl
          (fun m p => objInsert m p.1 (p.2 / (validResults.length : ℝ))) []
      .metrics averageMetrics queryResults.length validResults.length
        (queryResults.length - validResults.length)

/- Association-list (JS object) lemmas. -/

theorem objLookup_nil {α : Type} (k : String) : objLookup ([] : List (String × α)) k = none := rfl

theorem objLookup_cons {α : Type} (p : String × α) (m : List (String × α)) (k : String) :
    objLookup (p :: m) k = if p.1 == k then some p.2 else objLookup m k := by
  by_cases h : p.1 == k <;> simp [objLookup, List.find?_cons, h]

theorem objLookup_map_overwrite_self {α : Type} (m : List (String × α)) (k : String) (v : α)
    (hany : (m.any fun p => p.1 == k) = true) :
    objLookup (m.map (fun p => if p.1 == k then (k, v) else p)) k = some v := by
  induction m with
  | nil => simp at hany
  | cons p m ih =>
      by_cases h : p.1 = k
      · subst h
        simp [objLookup_cons]
      · have h' : (p.1 == k) = false := by simpa using h
        simp only [List.any_cons, h', Bool.false_or] at hany
        simp only [List.map_cons, h', Bool.false_eq_true, if_false, objLookup_cons]
        exact ih hany

theorem objLookup_map_overwrite_ne {α : Type} (m : List (String × α)) (k k' : String) (v : α)
    (h : k' ≠ k) :
    objLookup (m.map (fun p => if p.1 == k then (k, v) else p)) k' = objLookup m k' := by
  have hkk' : (k == k') = false := by
    simp only [beq_eq_false_iff_ne, ne_eq]
    exact fun hk => h hk.symm
  induction m with
  | nil => simp
  | cons p m ih =>
      by_cases hp : p.1 = k
      · subst hp
        simp only [List.map_cons, beq_self_eq_true, if_true, objLookup_cons, hkk',
          Bool.false_eq_true, if_false]
        exact ih
      · have h' : (p.1 == k) = false := by simpa using hp
        simp only [List.map_cons, h', Bool.false_eq_true, if_false, objLookup_cons]
        by_cases hq : (p.1 == k') = true
        · simp [hq]
        · have hq' : (p.1 == k') = false := by simpa using hq
          simp only [hq', Bool.false_eq_true, if_false]
          exact ih

theorem objLookup_append_single_self {α : Type} (m : List (String × α)) (k : String) (v : α)
    (hany : (m.any fun p => p.1 == k) = false) :
    objLookup (m ++ [(k, v)]) k = some v := by
  induction m with
  | nil => simp [objLookup_cons]
  | cons p m ih =>
      simp only [List.any_cons, Bool.or_eq_false_iff] at hany
      simp only [List.cons_append, objLookup_cons, hany.1, Bool.false_eq_true, if_false]
      exact ih hany.2

theorem objLookup_append_single_ne {α : Type} (m : List (String × α)) (k k' : String) (v : α)
    (h : k' ≠ k) : objLookup (m ++ [(k, v)]) k' = objLookup m k' := by
  have hkk' : (k == k') = false := by
    simp only [beq_eq_false_iff_ne, ne_eq]
    exact fun hk => h hk.symm
  induction m with
  | nil => simp [objLookup_cons, hkk']
  | cons p m ih => simp only [List.cons_append, objLookup_cons, ih]

theorem objLookup_objInsert_self {α : Type} (m : List (String × α)) (k : String) (v : α) :
    objLookup (objInsert m k v) k = some v := by
  unfold objInsert
  split
  · exact objLookup_map_overwrite_self m k v (by assumption)
  · rename_i hany
    exact objLookup_append_single_self m k v (Bool.eq_false_iff.mpr hany)

theorem objLookup_objInsert_ne {α : Type} (m : List (String × α)) (k k' : String) (v : α)
    (h : k' ≠ k) : objLookup (objInsert m k v) k' = objLookup m k' := by
  unfold objInsert
  split
  · exact objLookup_map_overwrite_ne m k k' v h
  · exact objLookup_append_single_ne m k k' v h

theorem objLookup_objSpread_notin {α : Type} (base fs : List (String × α)) (k : String)
    (h : ∀ p ∈ fs, p.1 ≠ k) : objLookup (objSpread base fs) k = objLookup base k := by
  induction fs generalizing base with
  | nil => rfl
  | cons p fs ih =>
      have hk : p.1 ≠ k := h p (by simp)
      calc objLookup (objSpread (objInsert base p.1 p.2) fs) k
          = objLookup (objInsert base p.1 p.2) k :=
            ih (objInsert base p.1 p.2) (fun q hq => h q (by simp [hq]))
        _ = objLookup base k := objLookup_objInsert_ne _ _ _ _ (fun hkk => hk hkk.symm)

theorem objLookup_objSpread_found {α : Type} (base fs : List (String × α)) (k : String) (v : α)
    (hnd : (fs.map Prod.fst).Nodup) (h : objLookup fs k = some v) :
    objLookup (objSpread base fs) k = some v := by
  induction fs generalizing base with
  | nil => simp [objLookup] at h
  | cons p fs ih =>
      simp only [List.map_cons, List.nodup_cons] at hnd
      rw [objLookup_cons] at h
      by_cases hp : p.1 == k
      · have hpk : p.1 = k := by simpa using hp
        simp only [hp, if_true, Option.some.injEq] at h
        subst h
        have hnotin : ∀ q ∈ fs, q.1 ≠ k := by
          intro q hq hqk
          exact hnd.1 (hpk ▸ hqk ▸ List.mem_map_of_mem Prod.fst hq)
        show objLookup (objSpread (objInsert base p.1 p.2) fs) k = some p.2
        rw [objLookup_objSpread_notin _ _ _ hnotin, hpk, objLookup_objInsert_self]
      · simp only [hp, if_false] at h
        exact ih (objInsert base p.1 p.2) hnd.2 h

theorem objLookup_objRemove_self {α : Type} (m : List (String × α)) (k : String) :
    objLookup (objRemove m k) k = none := by
  induction m with
  | nil => rfl
  | cons p m ih =>
      by_cases hp : p.1 == k
      · simpa [objRemove, List.filter_cons, hp] using ih
      · simpa [objRemove, List.filter_cons, hp, objLookup_cons] using ih

/- Stable descending sort lemmas. -/

theorem sortByScoreDesc_perm (l : List JsObj) : (sortByScoreDesc l).Perm l :=
  List.perm_insertionSort scoreGE l

theorem sortByScoreDesc_sorted (l : List JsObj) : List.Sorted scoreGE (sortByScoreDesc l) :=
  List.sorted_insertionSort scoreGE l

theorem filter_orderedInsert (s : ℚ) (x : JsObj) (l : List JsObj) :
    (List.orderedInsert scoreGE x l).filter (fun o => scoreKey o == s) =
      if scoreKey x = s then x :: l.filter (fun o => scoreKey o == s)
      else l.filter (fun o => scoreKey o == s) := by
  induction l with
  | nil =>
      by_cases h : scoreKey x = s
      · simp [List.orderedInsert, List.filter_cons, h]
      · have h' : (scoreKey x == s) = false := by simpa using h
        simp [List.orderedInsert, List.filter_cons, h, h']
  | cons y l ih =>
      rw [List.orderedInsert]
      by_cases hr : scoreGE x y
      · rw [if_pos hr]
        by_cases h : scoreKey x = s <;> simp [List.filter_cons, h]
      · rw [if_neg hr]
        have hys : scoreKey x < scoreKey y := lt_of_not_le hr
        by_cases hy : scoreKey y = s
        · by_cases h : scoreKey x = s
          · rw [h] at hys
            rw [hy] at hys
            exact absurd hys (lt_irrefl s)
          · simp [List.filter_cons, hy, h, ih]
        · have : (scoreKey y == s) = false := by simpa using hy
          by_cases h : scoreKey x = s <;> simp [List.filter_cons, this, h, ih]

theorem filter_sortByScoreDesc (s : ℚ) (l : List JsObj) :
    (sortByScoreDesc l).filter (fun o => scoreKey o == s) =
      l.filter (fun o => scoreKey o == s) := by
  induction l with
  | nil => rfl
  | cons a l ih =>
      have hstep : sortByScoreDesc (a :: l) =
          List.orderedInsert scoreGE a (sortByScoreDesc l) := rfl
      rw [hstep, filter_orderedInsert]
      by_cases h : scoreKey a = s
      · rw [if_pos h, ih, List.filter_cons]
        simp [h]
      · have h' : (scoreKey a == s) = false := by simpa using h
        rw [if_neg h, ih, List.filter_cons, h']
        simp

/- Batching-transparency: with a deterministic elementwise backend the
merged results are the input-order normal form, whatever the batch size. -/

theorem idealMerged_append (f : String → Option DocVal → ℚ) (q : String)
    (start : ℕ) (xs ys : List Document) :
    idealMerged f q start (xs ++ ys) =
      idealMerged f q start xs ++ idealMerged f q (start + xs.length) ys := by
  induction xs generalizing start with
  | nil => simp [idealMerged]
  | cons d xs ih =>
      simp only [List.cons_append, idealMerged, List.length_cons, List.append_eq]
      rw [ih (start + 1)]
      have harith : start + 1 + xs.length = start + (xs.length + 1) := by omega
      rw [harith]

theorem idealMerged_length (f : String → Option DocVal → ℚ) (q : String)
    (start : ℕ) (l : List Document) :
    (idealMerged f q start l).length = l.length := by
  induction l generalizing start with
  | nil => rfl
  | cons d l ih => simp [idealMerged, ih]

theorem idealMerged_get? (f : String → Option DocVal → ℚ) (q : String)
    (start : ℕ) (l : List Document) (j : ℕ) :
    (idealMerged f q start l).get? j =
      (l.get? j).map (fun d => buildResult (start + j) (f q (jsText d)) (some d)) := by
  induction l generalizing start j with
  | nil => simp [idealMerged]
  | cons d l ih =>
      cases j with
      | zero => simp [idealMerged]
      | succ j =>
          simp only [idealMerged, List.get?_cons_succ, ih (start + 1) j]
          have : start + 1 + j = start + (j + 1) := by omega
          rw [this]

theorem mem_idealMerged (f : String → Option DocVal → ℚ) (q : String)
    (start : ℕ) (l : List Document) (o : JsObj) (h : o ∈ idealMerged f q start l) :
    ∃ i d, l.get? i = some d ∧ o = buildResult (start + i) (f q (jsText d)) (some d) := by
  induction l generalizing start with
  | nil => simp [idealMerged] at h
  | cons d l ih =>
      simp only [idealMerged, List.mem_cons] at h
      rcases h with h | h
      · exact ⟨0, d, rfl, by simpa using h⟩
      · obtain ⟨i, d', hd', ho⟩ := ih (start + 1) h
        exact ⟨i + 1, d', by simpa using hd', by rw [ho]; congr 1; omega⟩

theorem buildChunk_eq_idealMerged (f : String → Option DocVal → ℚ) (q : String)
    (documents : List Document) (chunk : List Document) (start : ℕ)
    (hj : ∀ j, j < chunk.length → documents.get? (start + j) = chunk.get? j) :
    buildChunk documents start (chunk.map (fun d => f q (jsText d))) =
      idealMerged f q start chunk := by
  induction chunk generalizing start with
  | nil => rfl
  | cons c cs ih =>
      have h0 : documents.get? start = some c := by
        have := hj 0 (by simp)
        simpa using this
      simp only [List.map_cons, buildChunk, idealMerged, h0]
      congr 1
      apply ih
      intro j hjlen
      have h := hj (j + 1) (by simpa using Nat.succ_lt_succ hjlen)
      have h2 : start + 1 + j = start + (j + 1) := by omega
      rw [h2]
      simpa using h

theorem processBatches_mkBackend (f : String → Option DocVal → ℚ) (q : String)
    (documents : List Document) (batchSize : ℕ) (hbs : 1 ≤ batchSize) :
    ∀ n start, (documents.drop start).length = n →
      processBatches (mkBackend f) q documents batchSize start (documents.drop start) =
        .ok (idealMerged f q start (documents.drop start)) := by
  intro n
  induction n using Nat.strong_induction_on with
  | _ n ih =>
      intro start hn
      cases hrem : documents.drop start with
      | nil => simp [processBatches, idealMerged]
      | cons d rest =>
          have hchunk : d :: rest.take (batchSize - 1) =
              (documents.drop start).take batchSize := by
            rw [hrem]
            cases batchSize with
            | zero => omega
            | succ b => simp
          have hrest : rest.drop (batchSize - 1) = documents.drop (start + batchSize) := by
            have h1 : rest.drop (batchSize - 1) = (documents.drop start).drop batchSize := by
              rw [hrem]
              cases batchSize with
              | zero => omega
              | succ b => simp
            rw [h1, List.drop_drop]
          have hlen : (documents.drop (start + batchSize)).length < n := by
            have e1 : (documents.drop start).length = rest.length + 1 := by
              rw [hrem]
              simp
            have e2 : (documents.drop start).length = documents.length - start := by simp
            have e3 : (documents.drop (start + batchSize)).length =
                documents.length - (start + batchSize) := by simp
            omega
          have hrec := ih (documents.drop (start + batchSize)).length hlen (start + batchSize) rfl
          have hj : ∀ j, j < (d :: rest.take (batchSize - 1)).length →
              documents.get? (start + j) = (d :: rest.take (batchSize - 1)).get? j := by
            intro j hjlen
            rw [hchunk] at hjlen ⊢
            have hjb : j < batchSize :=
              lt_of_lt_of_le hjlen (by rw [List.length_take]; exact min_le_left _ _)
            rw [List.get?_take hjb]
            exact (List.get?_drop documents start j).symm
          have hchunkres := buildChunk_eq_idealMerged f q documents
            (d :: rest.take (batchSize - 1)) start hj
          have hsplit2 : (d :: rest : List Document) =
              (d :: rest.take (batchSize - 1)) ++ rest.drop (batchSize - 1) := by simp
          rw [processBatches]
          simp only [mkBackend, List.map_map, hrest, hrec]
          have hcomp : (d :: rest.take (batchSize - 1)).map
                ((fun p => f p.1 p.2) ∘ (fun doc => (q, jsText doc))) =
              (d :: rest.take (batchSize - 1)).map (fun dd => f q (jsText dd)) := rfl
          rw [hcomp, hchunkres]
          conv_rhs => rw [hsplit2]
          rw [idealMerged_append]
          by_cases hble : batchSize ≤ rest.length + 1
          · have hlen2 : (d :: rest.take (batchSize - 1)).length = batchSize := by
              simp only [List.length_cons, List.length_take]
              omega
            rw [hlen2, hrest]
          · have hnil1 : rest.drop (batchSize - 1) = [] :=
              List.drop_eq_nil_of_le (by omega)
            rw [← hrest, hnil1]
            simp [idealMerged]

theorem mergedResults_mkBackend (f : String → Option DocVal → ℚ) (q : String)
    (documents : List Document) (batchSize : ℕ) (hbs : 1 ≤ batchSize) :
    mergedResults (mkBackend f) q documents batchSize =
      .ok (idealMerged f q 0 documents) := by
  have h := processBatches_mkBackend f q documents batchSize hbs
    (documents.drop 0).length 0 rfl
  simpa using h

theorem rerank_mkBackend (f : String → Option DocVal → ℚ) (q : String)
    (documents : List Document) (topK batchSize : ℕ) (hbs : 1 ≤ batchSize) :
    rerank (mkBackend f) q documents topK batchSize =
      .ok ((sortByScoreDesc (idealMerged f q 0 documents)).take topK) := by
  unfold rerank
  by_cases hd : documents.isEmpty
  · have : documents = [] := by simpa [List.isEmpty_iff] using hd
    subst this
    simp [hd, idealMerged, sortByScoreDesc, List.insertionSort]
  · simp [hd, mergedResults_mkBackend f q documents batchSize hbs, Except.map]

/- Properties of `buildResult`. -/

theorem corpusIdKey_buildResult (idx : ℕ) (score : ℚ) (doc : Option Document)
    (hno : ∀ fields, doc = some (.record fields) →
      ∀ p ∈ fields, p.1 ≠ "_rerank_corpus_id") :
    corpusIdKey (buildResult idx score doc) = some (.num (idx : ℚ)) := by
  unfold corpusIdKey buildResult
  match doc with
  | none =>
      rw [objLookup_objSpread_notin _ _ _ (by intro p hp; simp at hp)]
      rfl
  | some (.str s) =>
      rw [objLookup_objSpread_notin _ _ _ ?_]
      · rfl
      · intro p hp
        simp only [List.mem_singleton] at hp
        subst hp
        show ("text" : String) ≠ "_rerank_corpus_id"
        decide
  | some (.record fields) =>
      rw [objLookup_objSpread_notin _ _ _ (hno fields rfl)]
      rfl

theorem scoreKey_buildResult (idx : ℕ) (score : ℚ) (doc : Option Document)
    (hno : ∀ fields, doc = some (.record fields) →
      ∀ p ∈ fields, p.1 ≠ "_rerank_score") :
    scoreKey (buildResult idx score doc) = score := by
  unfold scoreKey buildResult
  match doc with
  | none =>
      rw [objLookup_objSpread_notin _ _ _ (by intro p hp; simp at hp)]
      rfl
  | some (.str s) =>
      rw [objLookup_objSpread_notin _ _ _ ?_]
      · rfl
      · intro p hp
        simp only [List.mem_singleton] at hp
        subst hp
        show ("text" : String) ≠ "_rerank_score"
        decide
  | some (.record fields) =>
      rw [objLookup_objSpread_notin _ _ _ (hno fields rfl)]
      rfl

theorem buildResult_record_field (idx : ℕ) (score : ℚ) (fields : List (String × DocVal))
    (hnd : (fields.map Prod.fst).Nodup) (key : String) (v : DocVal)
    (h : objLookup fields key = some v) :
    objLookup (buildResult idx score (some (.record fields))) key = some v := by
  unfold buildResult
  exact objLookup_objSpread_found _ fields key v hnd h

theorem buildResult_str_text (idx : ℕ) (score : ℚ) (s : String) :
    objLookup (buildResult idx score (some (.str s))) "text" = some (.str s) := by
  unfold buildResult
  show objLookup (objSpread _ [("text", DocVal.str s)]) "text" = some (.str s)
  unfold objSpread
  simp only [List.foldl_cons, List.foldl_nil]
  exact objLookup_objInsert_self _ _ _

theorem objLookup_eq_none_iff {α : Type} (m : List (String × α)) (k : String) :
    objLookup m k = none ↔ ∀ p ∈ m, p.1 ≠ k := by
  simp [objLookup, List.find?_eq_none]

theorem filter_isPre {α : Type} (p : α → Bool) {l₁ l₂ : List α} (h : l₁ <+: l₂) :
    l₁.filter p <+: l₂.filter p := by
  obtain ⟨t, rfl⟩ := h
  exact ⟨t.filter p, (List.filter_append _ _).symm⟩

theorem take_isPre {α : Type} (n : ℕ) (l : List α) : l.take n <+: l :=
  ⟨l.drop n, List.take_append_drop n l⟩

theorem corpusIdKey_of_mem_idealMerged (f : String → Option DocVal → ℚ) (q : String)
    (start : ℕ) (l : List Document) (o : JsObj)
    (hrec : ∀ fields, Document.record fields ∈ l →
      ∀ p ∈ fields, p.1 ≠ "_rerank_corpus_id")
    (h : o ∈ idealMerged f q start l) :
    ∃ i d, l.get? i = some d ∧
      o = buildResult (start + i) (f q (jsText d)) (some d) ∧
      corpusIdKey o = some (.num ((start + i : ℕ) : ℚ)) := by
  obtain ⟨i, d, hd, ho⟩ := mem_idealMerged f q start l o h
  have hmem : d ∈ l := List.get?_mem hd
  have hid : corpusIdKey o = some (.num ((start + i : ℕ) : ℚ)) := by
    rw [ho]
    apply corpusIdKey_buildResult
    intro fields hf p hp
    have hdf : d = .record fields := by injection hf
    exact hrec fields (hdf ▸ hmem) p hp
  exact ⟨i, d, hd, ho, hid⟩

theorem idealMerged_ids_nodup (f : String → Option DocVal → ℚ) (q : String)
    (start : ℕ) (l : List Document)
    (hrec : ∀ fields, Document.record fields ∈ l →
      ∀ p ∈ fields, p.1 ≠ "_rerank_corpus_id") :
    ((idealMerged f q start l).map corpusIdKey).Nodup := by
  induction l generalizing start with
  | nil => simp [idealMerged]
  | cons d ds ih =>
      simp only [idealMerged, List.map_cons, List.nodup_cons]
      constructor
      · intro hmem
        have hhead : corpusIdKey (buildResult start (f q (jsText d)) (some d)) =
            some (.num ((start : ℕ) : ℚ)) := by
          apply corpusIdKey_buildResult
          intro fields hf p hp
          have hdf : d = .record fields := by injection hf
          exact hrec fields (by simp [hdf]) p hp
        rw [hhead] at hmem
        obtain ⟨o, ho, hoid⟩ := List.mem_map.mp hmem
        obtain ⟨i, d', hd', ho', hid⟩ := corpusIdKey_of_mem_idealMerged f q (start + 1) ds o
          (fun fields hf p hp => hrec fields (List.mem_cons_of_mem d hf) p hp) ho
        rw [hoid] at hid
        have hcast : ((start : ℕ) : ℚ) = ((start + 1 + i : ℕ) : ℚ) := by
          injection hid with h1
          injection h1
        have : (start : ℕ) = start + 1 + i := Nat.cast_injective hcast
        omega
      · exact ih (start + 1) (fun fields hf p hp => hrec fields (List.mem_cons_of_mem d hf) p hp)

theorem processBatches_error_of_malformed (backend : Backend) (q : String)
    (documents : List Document) (batchSize : ℕ)
    (hfail : ∀ pairs, (∃ p ∈ pairs, p.2 = none) → ∃ e, backend pairs = .error e) :
    ∀ n rem start, rem.length = n → (∃ d ∈ rem, jsText d = none) →
      ∃ e, processBatches backend q documents batchSize start rem = .error e := by
  intro n
  induction n using Nat.strong_induction_on with
  | _ n ih =>
      intro rem start hlen hmal
      cases rem with
      | nil => simp at hmal
      | cons d rest =>
          have heq : processBatches backend q documents batchSize start (d :: rest) =
              match backend ((d :: rest.take (batchSize - 1)).map
                  (fun doc => (q, jsText doc))) with
              | .error e => .error e
              | .ok chunkScores =>
                  match processBatches backend q documents batchSize
                      (start + batchSize) (rest.drop (batchSize - 1)) with
                  | .error e => .error e
                  | .ok tail => .ok (buildChunk documents start chunkScores ++ tail) := by
            rw [processBatches]
          by_cases hc : ∃ dd ∈ d :: rest.take (batchSize - 1), jsText dd = none
          · obtain ⟨dd, hdd, hnone⟩ := hc
            have hp : (q, (none : Option DocVal)) ∈
                (d :: rest.take (batchSize - 1)).map (fun doc => (q, jsText doc)) := by
              rw [← hnone]
              exact List.mem_map_of_mem _ hdd
            obtain ⟨e, he⟩ := hfail _ ⟨(q, none), hp, rfl⟩
            exact ⟨e, by rw [heq, he]⟩
          · have hmal' : ∃ dd ∈ rest.drop (batchSize - 1), jsText dd = none := by
              obtain ⟨dd, hdd, hnone⟩ := hmal
              have hsplit : dd ∈ (d :: rest.take (batchSize - 1)) ++
                  rest.drop (batchSize - 1) := by
                simpa using hdd
              rcases List.mem_append.mp hsplit with hin | hin
              · exact absurd ⟨dd, hin, hnone⟩ hc
              · exact ⟨dd, hin, hnone⟩
            have hltn : (rest.drop (batchSize - 1)).length < n := by
              have : (rest.drop (batchSize - 1)).length ≤ rest.length := by
                simp [List.length_drop]
              simp only [List.length_cons] at hlen
              omega
            obtain ⟨e, he⟩ := ih (rest.drop (batchSize - 1)).length hltn _
              (start + batchSize) rfl hmal'
            cases hb : backend ((d :: rest.take (batchSize - 1)).map
                (fun doc => (q, jsText doc))) with
            | error e' => exact ⟨e', by rw [heq, hb]⟩
            | ok scores => exact ⟨e, by rw [heq, hb, he]⟩

/-- C1: for every query `q`, every document list `D` and every `topK ≥ 0`
(`topK : ℕ`), reranking with a deterministic scoring backend and any
`batchSize ≥ 1` (the source default is 128) succeeds and returns a
sequence of length `min topK |D|` whose `_rerank_score` sequence is
non-increasing (sorted descending). -/
theorem C1_rerank_length_and_sorted (f : String → Option DocVal → ℚ) (q : String)
    (documents : List Document) (topK batchSize : ℕ) (hbs : 1 ≤ batchSize) :
    ∃ res, rerank (mkBackend f) q documents topK batchSize = .ok res ∧
      res.length = min topK documents.length ∧
      List.Sorted (fun a b : ℚ => a ≥ b) (res.map scoreKey) := by
  refine ⟨_, rerank_mkBackend f q documents topK batchSize hbs, ?_, ?_⟩
  · rw [List.length_take, (sortByScoreDesc_perm _).length_eq, idealMerged_length]
  · have hs : List.Sorted scoreGE (sortByScoreDesc (idealMerged f q 0 documents)) :=
      sortByScoreDesc_sorted _
    have hs2 : List.Pairwise scoreGE
        ((sortByScoreDesc (idealMerged f q 0 documents)).take topK) :=
      List.Pairwise.sublist (List.take_sublist topK _) hs
    exact List.pairwise_map.mpr (hs2.imp (fun h => h))

/-- C1 witness: a concrete run (3 documents, topK 2, the default batch
size 128) satisfying the hypothesis of `C1_rerank_length_and_sorted`. -/
theorem C1_witness :
    (1 : ℕ) ≤ 128 ∧
    ∃ res, rerank (mkBackend (fun _ t => if t = some (.str "ml") then 1 else 0)) "q"
        [Document.str "ml", Document.str "cooking", Document.str "sports"] 2 128 = .ok res ∧
      res.length = min 2 [Document.str "ml", Document.str "cooking",
        Document.str "sports"].length ∧
      List.Sorted (fun a b : ℚ => a ≥ b) (res.map scoreKey) :=
  ⟨by norm_num,
   C1_rerank_length_and_sorted (fun _ t => if t = some (.str "ml") then 1 else 0) "q"
     [Document.str "ml", Document.str "cooking", Document.str "sports"] 2 128
     (by norm_num)⟩

/-- C3: for a deterministic scoring backend, reranking the same query
and document list with any two batch sizes `b, b' ≥ 1` produces the very
same merged (score, corpus id) results and the very same top-K output:
batching is semantically transparent. -/
theorem C3_batching_transparent (f : String → Option DocVal → ℚ) (q : String)
    (documents : List Document) (topK b b' : ℕ) (hb : 1 ≤ b) (hb' : 1 ≤ b') :
    mergedResults (mkBackend f) q documents b =
      mergedResults (mkBackend f) q documents b' ∧
    rerank (mkBackend f) q documents topK b =
      rerank (mkBackend f) q documents topK b' := by
  constructor
  · rw [mergedResults_mkBackend f q documents b hb,
      mergedResults_mkBackend f q documents b' hb']
  · rw [rerank_mkBackend f q documents topK b hb,
      rerank_mkBackend f q documents topK b' hb']

/-- C3 witness: batch sizes 1 and 128 on a concrete 3-document list. -/
theorem C3_witness :
    (1 : ℕ) ≤ 1 ∧ (1 : ℕ) ≤ 128 ∧
    (mergedResults (mkBackend (fun _ t => if t = some (.str "b") then 2 else 1)) "q"
        [Document.str "a", Document.str "b", Document.str "c"] 1 =
      mergedResults (mkBackend (fun _ t => if t = some (.str "b") then 2 else 1)) "q"
        [Document.str "a", Document.str "b", Document.str "c"] 128 ∧
    rerank (mkBackend (fun _ t => if t = some (.str "b") then 2 else 1)) "q"
        [Document.str "a", Document.str "b", Document.str "c"] 2 1 =
      rerank (mkBackend (fun _ t => if t = some (.str "b") then 2 else 1)) "q"
        [Document.str "a", Document.str "b", Document.str "c"] 2 128) :=
  ⟨by norm_num, by norm_num,
   C3_batching_transparent (fun _ t => if t = some (.str "b") then 2 else 1) "q"
     [Document.str "a", Document.str "b", Document.str "c"] 2 1 128
     (by norm_num) (by norm_num)⟩

/-- C4: the final descending sort of `rerank` is stable: the merged
pre-sort list is the input-index-order normal form, and for every score
value `s` the output's run of `s`-scored objects is a prefix of the
merged list's `s`-scored objects in their original (batch-merge = input
index) order — equal-score documents keep their pre-sort relative
order. -/
theorem C4_sort_stable (f : String → Option DocVal → ℚ) (q : String)
    (documents : List Document) (topK batchSize : ℕ) (hbs : 1 ≤ batchSize) :
    ∃ merged res,
      mergedResults (mkBackend f) q documents batchSize = .ok merged ∧
      rerank (mkBackend f) q documents topK batchSize = .ok res ∧
      merged = idealMerged f q 0 documents ∧
      ∀ s : ℚ, res.filter (fun o => scoreKey o == s) <+:
        merged.filter (fun o => scoreKey o == s) := by
  refine ⟨_, _, mergedResults_mkBackend f q documents batchSize hbs,
    rerank_mkBackend f q documents topK batchSize hbs, rfl, ?_⟩
  intro s
  have h1 : ((sortByScoreDesc (idealMerged f q 0 documents)).take topK).filter
      (fun o => scoreKey o == s) <+:
      (sortByScoreDesc (idealMerged f q 0 documents)).filter
        (fun o => scoreKey o == s) :=
    filter_isPre _ (take_isPre topK _)
  rw [filter_sortByScoreDesc] at h1
  exact h1

/-- C4 witness: an all-ties run (constant backend), topK 2 of 3
documents, exercising `C4_sort_stable`. -/
theorem C4_witness :
    (1 : ℕ) ≤ 128 ∧
    ∃ merged res,
      mergedResults (mkBackend (fun _ _ => 0)) "q"
        [Document.str "a", Document.str "b", Document.str "c"] 128 = .ok merged ∧
      rerank (mkBackend (fun _ _ => 0)) "q"
        [Document.str "a", Document.str "b", Document.str "c"] 2 128 = .ok res ∧
      merged = idealMerged (fun _ _ => 0) "q" 0
        [Document.str "a", Document.str "b", Document.str "c"] ∧
      ∀ s : ℚ, res.filter (fun o => scoreKey o == s) <+:
        merged.filter (fun o => scoreKey o == s) :=
  ⟨by norm_num,
   C4_sort_stable (fun _ _ => 0) "q"
     [Document.str "a", Document.str "b", Document.str "c"] 2 128 (by norm_num)⟩

/-- The conclusion C5 claims for a rerank output of an `n`-document
call: the `_rerank_corpus_id` values are pairwise distinct and each is a
natural number below `n`. -/
def corpusIdsValid (res : List JsObj) (n : ℕ) : Prop :=
  (res.map corpusIdKey).Nodup ∧
  ∀ o ∈ res, ∃ i : ℕ, i < n ∧ corpusIdKey o = some (.num (i : ℚ))

/-- The content-preservation part of C5: the output object exposes the
original document content — every field of a record with its original
value, a plain string under the `text` key. -/
def preservesDoc (d : Document) (o : JsObj) : Prop :=
  match d with
  | .str s => objLookup o "text" = some (.str s)
  | .record fields => ∀ key v, objLookup fields key = some v → objLookup o key = some v

/-- C5 counterexample: a single record document that itself carries a
`_rerank_corpus_id` field (value 5) makes the spread of the original
fields overwrite the computed corpus id, so the output's corpus id is 5,
outside `{0}` — the claimed "duplicate-free subset of `{0,…,|D|-1}`"
fails as stated. -/
theorem C5_counterexample :
    rerank (mkBackend (fun _ _ => 0)) "q"
        [Document.record [("text", DocVal.str "a"), ("_rerank_corpus_id", DocVal.num 5)]]
        4 128 =
      .ok [[("_rerank_corpus_id", DocVal.num 5), ("_rerank_score", DocVal.num 0),
        ("text", DocVal.str "a")]] ∧
    ¬ corpusIdsValid
        [[("_rerank_corpus_id", DocVal.num 5), ("_rerank_score", DocVal.num 0),
          ("text", DocVal.str "a")]] 1 := by
  constructor
  · rw [rerank_mkBackend _ _ _ _ _ (by norm_num)]
    rfl
  · rintro ⟨-, hall⟩
    obtain ⟨i, hi, heq⟩ := hall [("_rerank_corpus_id", DocVal.num 5),
      ("_rerank_score", DocVal.num 0), ("text", DocVal.str "a")] (by simp)
    have hid : corpusIdKey [("_rerank_corpus_id", DocVal.num 5),
        ("_rerank_score", DocVal.num 0), ("text", DocVal.str "a")] =
        some (DocVal.num 5) := rfl
    rw [hid] at heq
    have h5 : (5 : ℚ) = (i : ℚ) := by
      injection heq with h1
      injection h1
    have hi0 : i = 0 := by omega
    rw [hi0] at h5
    norm_num at h5

/-- C5 amended: restricted to document lists whose record documents have
duplicate-free keys and do not themselves carry a `_rerank_corpus_id`
field (the reserved output name), the corpus ids of the output form a
duplicate-free subset of `{0,…,|D|-1}` and the item carrying corpus id
`i` exposes the exact original content of `D[i]`: every record field
preserved, a plain string wrapped under `text`. -/
theorem C5_amended (f : String → Option DocVal → ℚ) (q : String)
    (documents : List Document) (topK batchSize : ℕ) (hbs : 1 ≤ batchSize)
    (hdocs : ∀ fields, Document.record fields ∈ documents →
      (fields.map Prod.fst).Nodup ∧ objLookup fields "_rerank_corpus_id" = none) :
    ∃ res, rerank (mkBackend f) q documents topK batchSize = .ok res ∧
      corpusIdsValid res documents.length ∧
      ∀ o ∈ res, ∃ (i : ℕ) (d : Document), corpusIdKey o = some (.num (i : ℚ)) ∧
        documents.get? i = some d ∧ preservesDoc d o := by
  have hno : ∀ fields, Document.record fields ∈ documents →
      ∀ p ∈ fields, p.1 ≠ "_rerank_corpus_id" :=
    fun fields hf => (objLookup_eq_none_iff _ _).mp (hdocs fields hf).2
  have hmem_ideal : ∀ o, o ∈ (sortByScoreDesc (idealMerged f q 0 documents)).take topK →
      o ∈ idealMerged f q 0 documents := by
    intro o ho
    exact (sortByScoreDesc_perm _).mem_iff.mp (List.mem_of_mem_take ho)
  refine ⟨_, rerank_mkBackend f q documents topK batchSize hbs, ⟨?_, ?_⟩, ?_⟩
  · have h1 : ((idealMerged f q 0 documents).map corpusIdKey).Nodup :=
      idealMerged_ids_nodup f q 0 documents hno
    have h2 : ((sortByScoreDesc (idealMerged f q 0 documents)).map corpusIdKey).Nodup :=
      (((sortByScoreDesc_perm _).map corpusIdKey).nodup_iff).mpr h1
    exact List.Sublist.nodup (List.Sublist.map _ (List.take_sublist _ _)) h2
  · intro o ho
    obtain ⟨i, d, hd, ho', hid⟩ :=
      corpusIdKey_of_mem_idealMerged f q 0 documents o hno (hmem_ideal o ho)
    have hlt : i < documents.length := by
      by_contra hge
      push_neg at hge
      rw [List.get?_eq_none.mpr hge] at hd
      exact absurd hd (by simp)
    exact ⟨i, hlt, by simpa using hid⟩
  · intro o ho
    obtain ⟨i, d, hd, ho', hid⟩ :=
      corpusIdKey_of_mem_idealMerged f q 0 documents o hno (hmem_ideal o ho)
    refine ⟨i, d, by simpa using hid, hd, ?_⟩
    have hdm : d ∈ documents := List.get?_mem hd
    cases d with
    | str s =>
        show objLookup o "text" = some (.str s)
        rw [ho']
        exact buildResult_str_text _ _ s
    | record fields =>
        intro key v hv
        rw [ho']
        exact buildResult_record_field _ _ fields (hdocs fields hdm).1 key v hv

/-- C5 witness: a mixed list (a record without reserved fields and a
plain string) satisfying the hypotheses of `C5_amended`. -/
theorem C5_witness :
    (1 : ℕ) ≤ 128 ∧
    (∀ fields, Document.record fields ∈
        [Document.record [("text", DocVal.str "a"), ("id", DocVal.num 7)],
         Document.str "b"] →
      (fields.map Prod.fst).Nodup ∧ objLookup fields "_rerank_corpus_id" = none) ∧
    ∃ res, rerank (mkBackend (fun _ _ => 0)) "q"
        [Document.record [("text", DocVal.str "a"), ("id", DocVal.num 7)],
         Document.str "b"] 4 128 = .ok res ∧
      corpusIdsValid res
        [Document.record [("text", DocVal.str "a"), ("id", DocVal.num 7)],
         Document.str "b"].length ∧
      ∀ o ∈ res, ∃ (i : ℕ) (d : Document), corpusIdKey o = some (.num (i : ℚ)) ∧
        [Document.record [("text", DocVal.str "a"), ("id", DocVal.num 7)],
         Document.str "b"].get? i = some d ∧ preservesDoc d o :=
  ⟨by norm_num,
   by
     intro fields hf
     have hfe : fields = [("text", DocVal.str "a"), ("id", DocVal.num 7)] := by
       simpa using hf
     subst hfe
     exact ⟨by decide, by decide⟩,
   C5_amended (fun _ _ => 0) "q"
     [Document.record [("text", DocVal.str "a"), ("id", DocVal.num 7)],
      Document.str "b"] 4 128 (by norm_num)
     (by
       intro fields hf
       have hfe : fields = [("text", DocVal.str "a"), ("id", DocVal.num 7)] := by
         simpa using hf
       subst hfe
       exact ⟨by decide, by decide⟩)⟩

/-- C9: when some document has no extractable text (`doc.text` is
`undefined`, i.e. `jsText` is `none`), and the external backend meets
the boundary contract that scoring a pair with no passage text fails,
the whole rerank call fails with that propagated error — the document is
never silently scored and no partial output is returned. -/
theorem C9_malformed_document (backend : Backend) (q : String)
    (documents : List Document) (topK batchSize : ℕ)
    (hfail : ∀ pairs, (∃ p ∈ pairs, p.2 = none) → ∃ e, backend pairs = .error e)
    (hmal : ∃ d ∈ documents, jsText d = none) :
    ∃ e, rerank backend q documents topK batchSize = .error e := by
  obtain ⟨e, he⟩ := processBatches_error_of_malformed backend q documents batchSize hfail
    documents.length documents 0 rfl hmal
  have hne : documents.isEmpty = false := by
    obtain ⟨d, hd, -⟩ := hmal
    cases documents with
    | nil => simp at hd
    | cons a l => rfl
  refine ⟨e, ?_⟩
  unfold rerank mergedResults
  simp [hne, he, Except.map]

/-- The strict deterministic backend satisfies the malformed-pair
failure contract assumed in `C9_malformed_document`. -/
theorem strictBackend_fails_on_none (f : String → Option DocVal → ℚ) :
    ∀ pairs, (∃ p ∈ pairs, p.2 = none) →
      ∃ e, strictBackend f pairs = .error e := by
  intro pairs hp
  obtain ⟨p, hpmem, hp2⟩ := hp
  refine ⟨"malformed document", ?_⟩
  unfold strictBackend
  have hany : pairs.any (fun p => p.2.isNone) = true :=
    List.any_eq_true.mpr ⟨p, hpmem, by simp [hp2]⟩
  rw [hany]
  simp

/-- C9 witness: a record without a `text` field, scored through the
strict backend, makes the concrete rerank call fail. -/
theorem C9_witness :
    (∃ d ∈ [Document.record [("title", DocVal.str "no text here")]], jsText d = none) ∧
    ∃ e, rerank (strictBackend (fun _ _ => 0)) "q"
      [Document.record [("title", DocVal.str "no text here")]] 4 128 = .error e :=
  ⟨by decide,
   C9_malformed_document (strictBackend (fun _ _ => 0)) "q"
     [Document.record [("title", DocVal.str "no text here")]] 4 128
     (strictBackend_fails_on_none (fun _ _ => 0)) (by decide)⟩

/-- C10: when a record document itself contains a field named
`_rerank_corpus_id` or `_rerank_score`, the output object built for it
carries the caller's original field value in place of the computed one,
because the original fields are spread after the computed fields; every
object of the final rerank output is one of these merged objects. -/
theorem C10_reserved_field_override (f : String → Option DocVal → ℚ) (q : String)
    (documents : List Document) (topK batchSize i : ℕ)
    (fields : List (String × DocVal)) (key : String) (v : DocVal)
    (hbs : 1 ≤ batchSize)
    (hdoc : documents.get? i = some (.record fields))
    (hkey : key = "_rerank_corpus_id" ∨ key = "_rerank_score")
    (hnd : (fields.map Prod.fst).Nodup)
    (hv : objLookup fields key = some v) :
    ∃ merged, mergedResults (mkBackend f) q documents batchSize = .ok merged ∧
      (∃ o, merged.get? i = some o ∧ objLookup o key = some v) ∧
      ∀ res, rerank (mkBackend f) q documents topK batchSize = .ok res →
        ∀ x ∈ res, x ∈ merged := by
  refine ⟨_, mergedResults_mkBackend f q documents batchSize hbs,
    ⟨buildResult i (f q (jsText (.record fields))) (some (.record fields)), ?_, ?_⟩, ?_⟩
  · rw [idealMerged_get?, hdoc]
    simp
  · exact buildResult_record_field i _ fields hnd key v hv
  · intro res hres x hx
    rw [rerank_mkBackend f q documents topK batchSize hbs] at hres
    injection hres with h
    subst h
    exact (sortByScoreDesc_perm _).mem_iff.mp (List.mem_of_mem_take hx)

/-- C10 witness: a record carrying `_rerank_score: 9` keeps that value in
the built output object. -/
theorem C10_witness :
    (1 : ℕ) ≤ 128 ∧
    ([Document.record [("text", DocVal.str "a"), ("_rerank_score", DocVal.num 9)]].get? 0 =
      some (.record [("text", DocVal.str "a"), ("_rerank_score", DocVal.num 9)])) ∧
    ∃ merged, mergedResults (mkBackend (fun _ _ => 0)) "q"
        [Document.record [("text", DocVal.str "a"), ("_rerank_score", DocVal.num 9)]] 128 =
        .ok merged ∧
      (∃ o, merged.get? 0 = some o ∧
        objLookup o "_rerank_score" = some (DocVal.num 9)) ∧
      ∀ res, rerank (mkBackend (fun _ _ => 0)) "q"
          [Document.record [("text", DocVal.str "a"), ("_rerank_score", DocVal.num 9)]]
          4 128 = .ok res →
        ∀ x ∈ res, x ∈ merged :=
  ⟨by norm_num, by decide,
   C10_reserved_field_override (fun _ _ => 0) "q"
     [Document.record [("text", DocVal.str "a"), ("_rerank_score", DocVal.num 9)]]
     4 128 0 [("text", DocVal.str "a"), ("_rerank_score", DocVal.num 9)]
     "_rerank_score" (DocVal.num 9) (by norm_num) (by decide) (Or.inr rfl)
     (by decide) (by decide)⟩

/- ModelLoader state-machine lemmas. -/

theorem ensureLoaded_self_inflight (k : String) (s : CacheState) (lid : ℕ)
    (hm : objLookup s.models k = none) (hi : objLookup s.inflight k = some lid) :
    ensureLoadedCall k s = (.waiting lid, s) := by
  unfold ensureLoadedCall
  rw [hm, hi]

theorem ensureLoaded_self_fresh (k : String) (s : CacheState)
    (hm : objLookup s.models k = none) (hi : objLookup s.inflight k = none) :
    ensureLoadedCall k s =
      (.started s.nextLoadId,
       { models := s.models,
         inflight := objInsert s.inflight k s.nextLoadId,
         nextLoadId := s.nextLoadId + 1,
         loads := s.loads ++ [(k, s.nextLoadId)] }) := by
  unfold ensureLoadedCall
  rw [hm, hi]

theorem ensureLoaded_preserves_other (k' k : String) (h : k' ≠ k) (s : CacheState) :
    objLookup (ensureLoadedCall k' s).2.models k = objLookup s.models k ∧
    objLookup (ensureLoadedCall k' s).2.inflight k = objLookup s.inflight k ∧
    (ensureLoadedCall k' s).2.loads.filter (fun p => p.1 == k) =
      s.loads.filter (fun p => p.1 == k) := by
  have hbeq : (k' == k) = false := by simpa using h
  unfold ensureLoadedCall
  cases hm : objLookup s.models k' with
  | some e => exact ⟨rfl, rfl, rfl⟩
  | none =>
      cases hi : objLookup s.inflight k' with
      | some lid => exact ⟨rfl, rfl, rfl⟩
      | none =>
          refine ⟨rfl, ?_, ?_⟩
          · exact objLookup_objInsert_ne s.inflight k' k s.nextLoadId (fun hk => h hk.symm)
          · simp [List.filter_append, hbeq]

theorem processCalls_inflight (k : String) (lid : ℕ) :
    ∀ (calls : List String) (s : CacheState),
      objLookup s.models k = none → objLookup s.inflight k = some lid →
      (∀ p ∈ (processCalls calls s).1, p.1 = k → p.2 = .waiting lid) ∧
      (processCalls calls s).2.loads.filter (fun p => p.1 == k) =
        s.loads.filter (fun p => p.1 == k) ∧
      objLookup (processCalls calls s).2.models k = none ∧
      objLookup (processCalls calls s).2.inflight k = some lid := by
  intro calls
  induction calls with
  | nil =>
      intro s hm hi
      exact ⟨by simp [processCalls], rfl, hm, hi⟩
  | cons k' rest ih =>
      intro s hm hi
      by_cases hkk : k' = k
      · subst hkk
        have hcall := ensureLoaded_self_inflight k' s lid hm hi
        simp only [processCalls, hcall]
        obtain ⟨h1, h2, h3, h4⟩ := ih s hm hi
        refine ⟨?_, h2, h3, h4⟩
        intro p hp hpk
        rcases List.mem_cons.mp hp with rfl | hp'
        · rfl
        · exact h1 p hp' hpk
      · have hpres := ensureLoaded_preserves_other k' k hkk s
        simp only [processCalls]
        obtain ⟨h1, h2, h3, h4⟩ := ih (ensureLoadedCall k' s).2
          (hpres.1.trans hm) (hpres.2.1.trans hi)
        refine ⟨?_, h2.trans hpres.2.2, h3, h4⟩
        intro p hp hpk
        rcases List.mem_cons.mp hp with rfl | hp'
        · exact absurd hpk hkk
        · exact h1 p hp' hpk

theorem processCalls_fresh (k : String) :
    ∀ (calls : List String) (s : CacheState),
      objLookup s.models k = none → objLookup s.inflight k = none → k ∈ calls →
      ∃ lid rest,
        (processCalls calls s).1.filter (fun p => p.1 == k) = (k, .started lid) :: rest ∧
        (∀ p ∈ rest, p = (k, .waiting lid)) ∧
        (processCalls calls s).2.loads.filter (fun p => p.1 == k) =
          s.loads.filter (fun p => p.1 == k) ++ [(k, lid)] ∧
        objLookup (processCalls calls s).2.models k = none ∧
        objLookup (processCalls calls s).2.inflight k = some lid := by
  intro calls
  induction calls with
  | nil =>
      intro s hm hi hk
      simp at hk
  | cons k' rest ih =>
      intro s hm hi hk
      by_cases hkk : k' = k
      · subst hkk
        have hcall := ensureLoaded_self_fresh k' s hm hi
        have hm' : objLookup (ensureLoadedCall k' s).2.models k' = none := by
          rw [hcall]
          exact hm
        have hi' : objLookup (ensureLoadedCall k' s).2.inflight k' =
            some s.nextLoadId := by
          rw [hcall]
          exact objLookup_objInsert_self s.inflight k' s.nextLoadId
        obtain ⟨h1, h2, h3, h4⟩ :=
          processCalls_inflight k' s.nextLoadId rest (ensureLoadedCall k' s).2 hm' hi'
        refine ⟨s.nextLoadId,
          ((processCalls rest (ensureLoadedCall k' s).2).1).filter (fun p => p.1 == k'),
          ?_, ?_, ?_, h3, h4⟩
        · simp only [processCalls, hcall, List.filter_cons, beq_self_eq_true, if_true]
        · intro p hp
          obtain ⟨hpmem, hpeq⟩ := List.mem_filter.mp hp
          have hp1 : p.1 = k' := by simpa using hpeq
          have hp2 : p.2 = .waiting s.nextLoadId := h1 p hpmem hp1
          calc p = (p.1, p.2) := rfl
            _ = (k', .waiting s.nextLoadId) := by rw [hp1, hp2]
        · simp only [processCalls]
          rw [h2, hcall]
          simp [List.filter_append]
      · have hk' : k ∈ rest := by
          rcases List.mem_cons.mp hk with h | h
          · exact absurd h.symm hkk
          · exact h
        have hpres := ensureLoaded_preserves_other k' k hkk s
        obtain ⟨lid, rest₀, h1, h2, h3, h4, h5⟩ := ih (ensureLoadedCall k' s).2
          (hpres.1.trans hm) (hpres.2.1.trans hi) hk'
        have hbeq : (k' == k) = false := by simpa using hkk
        refine ⟨lid, rest₀, ?_, h2, ?_, h4, h5⟩
        · simp only [processCalls, List.filter_cons, hbeq, Bool.false_eq_true, if_false]
          exact h1
        · simp only [processCalls]
          rw [h3, hpres.2.2]

/-- C6: when a burst of `initialize()` calls for the same model key all
run their synchronous heads before the first load settles, exactly one
backend load is issued for that key; the first caller starts it and
every later caller awaits the very same pending load (same load id), so
all of them observe the same settlement; on success the single entry is
stored in the shared cache, on failure nothing is cached and the
in-flight marker is cleared. -/
theorem C6_single_load (calls : List String) (k : String) (hk : k ∈ calls) :
    ∃ lid rest,
      (processCalls calls initState).1.filter (fun p => p.1 == k) =
        (k, .started lid) :: rest ∧
      (∀ p ∈ rest, p = (k, .waiting lid)) ∧
      ((processCalls calls initState).2.loads.filter (fun p => p.1 == k)).length = 1 ∧
      objLookup (processCalls calls initState).2.models k = none ∧
      objLookup (processCalls calls initState).2.inflight k = some lid ∧
      (∀ e, objLookup (completeLoad k (.ok e) (processCalls calls initState).2).models k =
        some e) ∧
      objLookup (completeLoad k .err (processCalls calls initState).2).models k = none ∧
      objLookup (completeLoad k .err (processCalls calls initState).2).inflight k =
        none := by
  obtain ⟨lid, rest, h1, h2, h3, h4, h5⟩ :=
    processCalls_fresh k calls initState rfl rfl hk
  refine ⟨lid, rest, h1, h2, ?_, h4, h5, ?_, ?_, ?_⟩
  · rw [h3]
    rfl
  · intro e
    show objLookup (objInsert (processCalls calls initState).2.models k e) k = some e
    exact objLookup_objInsert_self _ _ _
  · exact h4
  · exact objLookup_objRemove_self _ _

/-- C6 witness: three concurrent calls for key `m` interleaved with one
for key `n`. -/
theorem C6_witness :
    ("m" ∈ ["m", "m", "n", "m"]) ∧
    ∃ lid rest,
      (processCalls ["m", "m", "n", "m"] initState).1.filter (fun p => p.1 == "m") =
        ("m", .started lid) :: rest ∧
      (∀ p ∈ rest, p = ("m", .waiting lid)) ∧
      ((processCalls ["m", "m", "n", "m"] initState).2.loads.filter
        (fun p => p.1 == "m")).length = 1 ∧
      objLookup (processCalls ["m", "m", "n", "m"] initState).2.models "m" = none ∧
      objLookup (processCalls ["m", "m", "n", "m"] initState).2.inflight "m" = some lid ∧
      (∀ e, objLookup (completeLoad "m" (.ok e)
        (processCalls ["m", "m", "n", "m"] initState).2).models "m" = some e) ∧
      objLookup (completeLoad "m" .err
        (processCalls ["m", "m", "n", "m"] initState).2).models "m" = none ∧
      objLookup (completeLoad "m" .err
        (processCalls ["m", "m", "n", "m"] initState).2).inflight "m" = none :=
  ⟨by decide, C6_single_load ["m", "m", "n", "m"] "m" (by decide)⟩

/-- C2: normalization is chosen by the logits shape: one column ⇒
sigmoid of the single logit (logit 0 ⇒ score 1/2); several columns ⇒
softmax of the row at the positive class index, which is the first label
index whose name matches `relevant`/`positive` case-insensitively
(substring test, source regex `/relevant|positive/i`), defaulting to 1;
for the row `[-2, 2]` with the (default) positive class at index 1 the
score is `e² / (e⁻² + e²) ≈ 0.9820`. -/
theorem C2_score_normalization (id2label : List (ℕ × String)) (logitsData : List (List ℝ)) :
    applyScoreNormalization id2label 1 logitsData =
      logitsData.map (fun row => sigmoid (row.headD 0)) ∧
    sigmoid 0 = 1 / 2 ∧
    applyScoreNormalization id2label 2 logitsData =
      logitsData.map (fun row => (softmax row).getD (positiveClassIndex id2label) 0) ∧
    positiveClassIndex [(0, "negative"), (1, "positive")] = 1 ∧
    positiveClassIndex [(0, "Relevant"), (1, "positive")] = 0 ∧
    positiveClassIndex [(0, "LABEL_0"), (1, "LABEL_1")] = 1 ∧
    positiveClassIndex [(0, "bad"), (1, "POSITIVE")] = 1 ∧
    applyScoreNormalization [(0, "LABEL_0"), (1, "LABEL_1")] 2 [[-2, 2]] =
      [Real.exp 2 / (Real.exp (-2) + Real.exp 2)] ∧
    |Real.exp 2 / (Real.exp (-2) + Real.exp 2) - 0.9820| < 0.0001 := by
  refine ⟨rfl, ?_, rfl, by decide, by decide, by decide, by decide, ?_, ?_⟩
  · unfold sigmoid
    rw [neg_zero, Real.exp_zero]
    norm_num
  · have hpci : positiveClassIndex [(0, "LABEL_0"), (1, "LABEL_1")] = 1 := by decide
    simp [applyScoreNormalization, softmax, hpci]
  · have hneg : Real.exp (-2 : ℝ) = (Real.exp 2)⁻¹ := Real.exp_neg 2
    have hp : (0 : ℝ) < Real.exp 2 := Real.exp_pos 2
    have hE1 : (2.7182818283 : ℝ) < Real.exp 1 := Real.exp_one_gt_d9
    have hE2 : Real.exp 1 < 2.7182818286 := Real.exp_one_lt_d9
    have hEpos : (0 : ℝ) < Real.exp 1 := Real.exp_pos 1
    have hx : Real.exp 2 = Real.exp 1 * Real.exp 1 := by
      rw [← Real.exp_add]
      norm_num
    have hxl : (7.389 : ℝ) < Real.exp 2 := by
      rw [hx]
      nlinarith
    have hxu : Real.exp 2 < 7.3891 := by
      rw [hx]
      nlinarith
    have htl : (54.59 : ℝ) < Real.exp 2 * Real.exp 2 := by nlinarith
    have htu : Real.exp 2 * Real.exp 2 < 54.61 := by nlinarith
    have h1t : (0 : ℝ) < 1 + Real.exp 2 * Real.exp 2 := by nlinarith
    have hs : Real.exp 2 / (Real.exp (-2 : ℝ) + Real.exp 2) =
        (Real.exp 2 * Real.exp 2) / (1 + Real.exp 2 * Real.exp 2) := by
      rw [hneg]
      have hd1 : (Real.exp 2)⁻¹ + Real.exp 2 ≠ 0 := by positivity
      rw [div_eq_div_iff hd1 h1t.ne']
      field_simp
      ring
    rw [hs]
    have hlow : (0.9819 : ℝ) < (Real.exp 2 * Real.exp 2) / (1 + Real.exp 2 * Real.exp 2) := by
      rw [lt_div_iff h1t]
      nlinarith
    have hhigh : (Real.exp 2 * Real.exp 2) / (1 + Real.exp 2 * Real.exp 2) < 0.9821 := by
      rw [div_lt_iff h1t]
      nlinarith
    rw [abs_sub_lt_iff]
    constructor <;> linarith

/-- C7: `calculateNDCG` is `DCG@k / IDCG@k` guarded by `IDCG@k > 0` (and
0 otherwise); on the worked example `[relevant, irrelevant, relevant,
irrelevant]` with `k = 3`, `DCG@3 = 1 + 1/log2 3` (rank 1 unscaled, rank
3 discounted by `log2 3`), `IDCG@3 = 2` (both relevant items packed
first), and `NDCG@3 ≈ 0.8155`. -/
theorem C7_ndcg (rankedPassages : List Bool) (k : ℕ) :
    calculateNDCG rankedPassages k =
      (if calculateIDCG rankedPassages k > 0 then
        calculateDCG rankedPassages k / calculateIDCG rankedPassages k else 0) ∧
    calculateDCG [true, false, true, false] 3 = 1 + 1 / Real.logb 2 3 ∧
    calculateIDCG [true, false, true, false] 3 = 2 ∧
    calculateNDCG [false, false, false] 10 = 0 ∧
    |calculateNDCG [true, false, true, false] 3 - 0.8155| < 0.0001 := by
  have hdcg : calculateDCG [true, false, true, false] 3 = 1 + 1 / Real.logb 2 3 := by
    show (List.range (min 4 3)).foldl _ 0 = _
    norm_num [List.range_succ, calculateDCG]
  have hidcg : calculateIDCG [true, false, true, false] 3 = 2 := by
    unfold calculateIDCG
    norm_num [List.range_succ, List.filter, Real.logb_self_eq_one]
  refine ⟨rfl, hdcg, hidcg, ?_, ?_⟩
  · show (if calculateIDCG [false, false, false] 10 > 0 then _ else (0:ℝ)) = 0
    have h0 : calculateIDCG [false, false, false] 10 = 0 := rfl
    rw [h0]
    norm_num
  · have hndcg : calculateNDCG [true, false, true, false] 3 =
        (1 + 1 / Real.logb 2 3) / 2 := by
      show (if calculateIDCG [true, false, true, false] 3 > 0 then
        calculateDCG [true, false, true, false] 3 /
          calculateIDCG [true, false, true, false] 3 else 0) = _
      rw [hdcg, hidcg]
      norm_num
    rw [hndcg]
    have hlog2pos : (0 : ℝ) < Real.log 2 := Real.log_pos (by norm_num)
    have hlog3pos : (0 : ℝ) < Real.log 3 := Real.log_pos (by norm_num)
    have hl : (84 : ℝ) / 53 < Real.logb 2 3 := by
      have h1 : Real.log ((2 : ℝ) ^ (84 : ℕ)) < Real.log ((3 : ℝ) ^ (53 : ℕ)) :=
        Real.log_lt_log (by positivity) (by norm_num)
      rw [Real.log_pow, Real.log_pow] at h1
      push_cast at h1
      show (84 : ℝ) / 53 < Real.log 3 / Real.log 2
      rw [div_lt_div_iff (by norm_num) hlog2pos]
      linarith
    have hu : Real.logb 2 3 < 485 / 306 := by
      have h1 : Real.log ((3 : ℝ) ^ (306 : ℕ)) < Real.log ((2 : ℝ) ^ (485 : ℕ)) :=
        Real.log_lt_log (by positivity) (by norm_num)
      rw [Real.log_pow, Real.log_pow] at h1
      push_cast at h1
      show Real.log 3 / Real.log 2 < (485 : ℝ) / 306
      rw [div_lt_div_iff hlog2pos (by norm_num)]
      linarith
    have hxpos : (0 : ℝ) < Real.logb 2 3 := lt_trans (by norm_num) hl
    have hil : (306 : ℝ) / 485 < 1 / Real.logb 2 3 := by
      rw [lt_div_iff hxpos]
      nlinarith
    have hiu : 1 / Real.logb 2 3 < (53 : ℝ) / 84 := by
      rw [div_lt_iff hxpos]
      nlinarith
    rw [abs_sub_lt_iff]
    constructor <;> linarith


/- C8 machinery: `calculateAverageMetrics` at the default cutoffs
`[1, 3, 5, 10]`, evaluated slot by slot over the 16 metric keys. -/

theorem C8key_MRR_1 : ("MRR@" ++ toString (1 : ℕ)) = "MRR@1" := rfl

theorem C8key_NDCG_1 : ("NDCG@" ++ toString (1 : ℕ)) = "NDCG@1" := rfl

theorem C8key_Precision_1 : ("Precision@" ++ toString (1 : ℕ)) = "Precision@1" := rfl

theorem C8key_Recall_1 : ("Recall@" ++ toString (1 : ℕ)) = "Recall@1" := rfl

theorem C8key_MRR_3 : ("MRR@" ++ toString (3 : ℕ)) = "MRR@3" := rfl

theorem C8key_NDCG_3 : ("NDCG@" ++ toString (3 : ℕ)) = "NDCG@3" := rfl

theorem C8key_Precision_3 : ("Precision@" ++ toString (3 : ℕ)) = "Precision@3" := rfl

theorem C8key_Recall_3 : ("Recall@" ++ toString (3 : ℕ)) = "Recall@3" := rfl

theorem C8key_MRR_5 : ("MRR@" ++ toString (5 : ℕ)) = "MRR@5" := rfl

theorem C8key_NDCG_5 : ("NDCG@" ++ toString (5 : ℕ)) = "NDCG@5" := rfl

theorem C8key_Precision_5 : ("Precision@" ++ toString (5 : ℕ)) = "Precision@5" := rfl

theorem C8key_Recall_5 : ("Recall@" ++ toString (5 : ℕ)) = "Recall@5" := rfl

theorem C8key_MRR_10 : ("MRR@" ++ toString (10 : ℕ)) = "MRR@10" := rfl

theorem C8key_NDCG_10 : ("NDCG@" ++ toString (10 : ℕ)) = "NDCG@10" := rfl

theorem C8key_Precision_10 : ("Precision@" ++ toString (10 : ℕ)) = "Precision@10" := rfl

theorem C8key_Recall_10 : ("Recall@" ++ toString (10 : ℕ)) = "Recall@10" := rfl

theorem C8ins_0 (w : ℝ) :
    objInsert
      ([] : List (String × ℝ))
      "MRR@1" w =
      [("MRR@1", w)] := rfl

theorem C8ins_1 (v1 w : ℝ) :
    objInsert
      [("MRR@1", v1)]
      "NDCG@1" w =
      [("MRR@1", v1), ("NDCG@1", w)] := rfl

theorem C8ins_2 (v1 v2 w : ℝ) :
    objInsert
      [("MRR@1", v1), ("NDCG@1", v2)]
      "Precision@1" w =
      [("MRR@1", v1), ("NDCG@1", v2), ("Precision@1", w)] := rfl

theorem C8ins_3 (v1 v2 v3 w : ℝ) :
    objInsert
      [("MRR@1", v1), ("NDCG@1", v2), ("Precision@1", v3)]
      "Recall@1" w =
      [("MRR@1", v1), ("NDCG@1", v2), ("Precision@1", v3), ("Recall@1", w)] := rfl

theorem C8ins_4 (v1 v2 v3 v4 w : ℝ) :
    objInsert
      [("MRR@1", v1), ("NDCG@1", v2), ("Precision@1", v3), ("Recall@1", v4)]
      "MRR@3" w =
      [("MRR@1", v1), ("NDCG@1", v2), ("Precision@1", v3), ("Recall@1", v4),
       ("MRR@3", w)] := rfl

theorem C8ins_5 (v1 v2 v3 v4 v5 w : ℝ) :
    objInsert
      [("MRR@1", v1), ("NDCG@1", v2), ("Precision@1", v3), ("Recall@1", v4),
       ("MRR@3", v5)]
      "NDCG@3" w =
      [("MRR@1", v1), ("NDCG@1", v2), ("Precision@1", v3), ("Recall@1", v4),
       ("MRR@3", v5), ("NDCG@3", w)] := rfl

theorem C8ins_6 (v1 v2 v3 v4 v5 v6 w : ℝ) :
    objInsert
      [("MRR@1", v1), ("NDCG@1", v2), ("Precision@1", v3), ("Recall@1", v4),
       ("MRR@3", v5), ("NDCG@3", v6)]
      "Precision@3" w =
      [("MRR@1", v1), ("NDCG@1", v2), ("Precision@1", v3), ("Recall@1", v4),
       ("MRR@3", v5), ("NDCG@3", v6), ("Precision@3", w)] := rfl

theorem C8ins_7 (v1 v2 v3 v4 v5 v6 v7 w : ℝ) :
    objInsert
      [("MRR@1", v1), ("NDCG@1", v2), ("Precision@1", v3), ("Recall@1", v4),
       ("MRR@3", v5), ("NDCG@3", v6), ("Precision@3", v7)]
      "Recall@3" w =
      [("MRR@1", v1), ("NDCG@1", v2), ("Precision@1", v3), ("Recall@1", v4),
       ("MRR@3", v5), ("NDCG@3", v6), ("Precision@3", v7), ("Recall@3", w)] := rfl

theorem C8ins_8 (v1 v2 v3 v4 v5 v6 v7 v8 w : ℝ) :
    objInsert
      [("MRR@1", v1), ("NDCG@1", v2), ("Precision@1", v3), ("Recall@1", v4),
       ("MRR@3", v5), ("NDCG@3", v6), ("Precision@3", v7), ("Recall@3", v8)]
      "MRR@5" w =
      [("MRR@1", v1), ("NDCG@1", v2), ("Precision@1", v3), ("Recall@1", v4),
       ("MRR@3", v5), ("NDCG@3", v6), ("Precision@3", v7), ("Recall@3", v8),
       ("MRR@5", w)] := rfl

theorem C8ins_9 (v1 v2 v3 v4 v5 v6 v7 v8 v9 w : ℝ) :
    objInsert
      [("MRR@1", v1), ("NDCG@1", v2), ("Precision@1", v3), ("Recall@1", v4),
       ("MRR@3", v5), ("NDCG@3", v6), ("Precision@3", v7), ("Recall@3", v8),
       ("MRR@5", v9)]
      "NDCG@5" w =
      [("MRR@1", v1), ("NDCG@1", v2), ("Precision@1", v3), ("Recall@1", v4),
       ("MRR@3", v5), ("NDCG@3", v6), ("Precision@3", v7), ("Recall@3", v8),
       ("MRR@5", v9), ("NDCG@5", w)] := rfl

theorem C8ins_10 (v1 v2 v3 v4 v5 v6 v7 v8 v9 v10 w : ℝ) :
    objInsert
      [("MRR@1", v1), ("NDCG@1", v2), ("Precision@1", v3), ("Recall@1", v4),
       ("MRR@3", v5), ("NDCG@3", v6), ("Precision@3", v7), ("Recall@3", v8),
       ("MRR@5", v9), ("NDCG@5", v10)]
      "Precision@5" w =
      [("MRR@1", v1), ("NDCG@1", v2), ("Precision@1", v3), ("Recall@1", v4),
       ("MRR@3", v5), ("NDCG@3", v6), ("Precision@3", v7), ("Recall@3", v8),
       ("MRR@5", v9), ("NDCG@5", v10), ("Precision@5", w)] := rfl

theorem C8ins_11 (v1 v2 v3 v4 v5 v6 v7 v8 v9 v10 v11 w : ℝ) :
    objInsert
      [("MRR@1", v1), ("NDCG@1", v2), ("Precision@1", v3), ("Recall@1", v4),
       ("MRR@3", v5), ("NDCG@3", v6), ("Precision@3", v7), ("Recall@3", v8),
       ("MRR@5", v9), ("NDCG@5", v10), ("Precision@5", v11)]
      "Recall@5" w =
      [("MRR@1", v1), ("NDCG@1", v2), ("Precision@1", v3), ("Recall@1", v4),
       ("MRR@3", v5), ("NDCG@3", v6), ("Precision@3", v7), ("Recall@3", v8),
       ("MRR@5", v9), ("NDCG@5", v10), ("Precision@5", v11), ("Recall@5", w)] := rfl

theorem C8ins_12 (v1 v2 v3 v4 v5 v6 v7 v8 v9 v10 v11 v12 w : ℝ) :
    objInsert
      [("MRR@1", v1), ("NDCG@1", v2), ("Precision@1", v3), ("Recall@1", v4),
       ("MRR@3", v5), ("NDCG@3", v6), ("Precision@3", v7), ("Recall@3", v8),
       ("MRR@5", v9), ("NDCG@5", v10), ("Precision@5", v11),
       ("Recall@5", v12)]
      "MRR@10" w =
      [("MRR@1", v1), ("NDCG@1", v2), ("Precision@1", v3), ("Recall@1", v4),
       ("MRR@3", v5), ("NDCG@3", v6), ("Precision@3", v7), ("Recall@3", v8),
       ("MRR@5", v9), ("NDCG@5", v10), ("Precision@5", v11),
       ("Recall@5", v12), ("MRR@10", w)] := rfl

theorem C8ins_13 (v1 v2 v3 v4 v5 v6 v7 v8 v9 v10 v11 v12 v13 w : ℝ) :
    objInsert
      [("MRR@1", v1), ("NDCG@1", v2), ("Precision@1", v3), ("Recall@1", v4),
       ("MRR@3", v5), ("NDCG@3", v6), ("Precision@3", v7), ("Recall@3", v8),
       ("MRR@5", v9), ("NDCG@5", v10), ("Precision@5", v11),
       ("Recall@5", v12), ("MRR@10", v13)]
      "NDCG@10" w =
      [("MRR@1", v1), ("NDCG@1", v2), ("Precision@1", v3), ("Recall@1", v4),
       ("MRR@3", v5), ("NDCG@3", v6), ("Precision@3", v7), ("Recall@3", v8),
       ("MRR@5", v9), ("NDCG@5", v10), ("Precision@5", v11),
       ("Recall@5", v12), ("MRR@10", v13), ("NDCG@10", w)] := rfl

theorem C8ins_14 (v1 v2 v3 v4 v5 v6 v7 v8 v9 v10 v11 v12 v13 v14 w : ℝ) :
    objInsert
      [("MRR@1", v1), ("NDCG@1", v2), ("Precision@1", v3), ("Recall@1", v4),
       ("MRR@3", v5), ("NDCG@3", v6), ("Precision@3", v7), ("Recall@3", v8),
       ("MRR@5", v9), ("NDCG@5", v10), ("Precision@5", v11),
       ("Recall@5", v12), ("MRR@10", v13), ("NDCG@10", v14)]
      "Precision@10" w =
      [("MRR@1", v1), ("NDCG@1", v2), ("Precision@1", v3), ("Recall@1", v4),
       ("MRR@3", v5), ("NDCG@3", v6), ("Precision@3", v7), ("Recall@3", v8),
       ("MRR@5", v9), ("NDCG@5", v10), ("Precision@5", v11),
       ("Recall@5", v12), ("MRR@10", v13), ("NDCG@10", v14),
       ("Precision@10", w)] := rfl

theorem C8ins_15 (v1 v2 v3 v4 v5 v6 v7 v8 v9 v10 v11 v12 v13 v14 v15 w : ℝ) :
    objInsert
      [("MRR@1", v1), ("NDCG@1", v2), ("Precision@1", v3), ("Recall@1", v4),
       ("MRR@3", v5), ("NDCG@3", v6), ("Precision@3", v7), ("Recall@3", v8),
       ("MRR@5", v9), ("NDCG@5", v10), ("Precision@5", v11),
       ("Recall@5", v12), ("MRR@10", v13), ("NDCG@10", v14),
       ("Precision@10", v15)]
      "Recall@10" w =
      [("MRR@1", v1), ("NDCG@1", v2), ("Precision@1", v3), ("Recall@1", v4),
       ("MRR@3", v5), ("NDCG@3", v6), ("Precision@3", v7), ("Recall@3", v8),
       ("MRR@5", v9), ("NDCG@5", v10), ("Precision@5", v11),
       ("Recall@5", v12), ("MRR@10", v13), ("NDCG@10", v14),
       ("Precision@10", v15), ("Recall@10", w)] := rfl

theorem calculateAllMetrics_default (rp : List Bool) :
    calculateAllMetrics rp [1, 3, 5, 10] =
      [("MRR@1", calculateMRR rp 1), ("NDCG@1", calculateNDCG rp 1),
       ("Precision@1", calculatePrecisionAtK rp 1),
       ("Recall@1", calculateRecallAtK rp 1), ("MRR@3", calculateMRR rp 3),
       ("NDCG@3", calculateNDCG rp 3),
       ("Precision@3", calculatePrecisionAtK rp 3),
       ("Recall@3", calculateRecallAtK rp 3), ("MRR@5", calculateMRR rp 5),
       ("NDCG@5", calculateNDCG rp 5),
       ("Precision@5", calculatePrecisionAtK rp 5),
       ("Recall@5", calculateRecallAtK rp 5), ("MRR@10", calculateMRR rp 10),
       ("NDCG@10", calculateNDCG rp 10),
       ("Precision@10", calculatePrecisionAtK rp 10),
       ("Recall@10", calculateRecallAtK rp 10)] := by
  simp only [calculateAllMetrics, List.foldl_cons, List.foldl_nil,
    C8key_MRR_1, C8key_NDCG_1, C8key_Precision_1, C8key_Recall_1, C8key_MRR_3, C8key_NDCG_3, C8key_Precision_3, C8key_Recall_3, C8key_MRR_5, C8key_NDCG_5, C8key_Precision_5, C8key_Recall_5, C8key_MRR_10, C8key_NDCG_10, C8key_Precision_10, C8key_Recall_10, C8ins_0, C8ins_1, C8ins_2, C8ins_3, C8ins_4, C8ins_5, C8ins_6, C8ins_7, C8ins_8, C8ins_9, C8ins_10, C8ins_11, C8ins_12, C8ins_13, C8ins_14, C8ins_15]

theorem metricSums_init_default :
    ([1, 3, 5, 10].foldl
      (fun m k =>
        objInsert
          (objInsert
            (objInsert
              (objInsert m ("MRR@" ++ toString k) 0)
              ("NDCG@" ++ toString k) 0)
            ("Precision@" ++ toString k) 0)
          ("Recall@" ++ toString k) 0)
      ([] : List (String × ℝ))) =
      [("MRR@1", 0), ("NDCG@1", 0), ("Precision@1", 0), ("Recall@1", 0),
       ("MRR@3", 0), ("NDCG@3", 0), ("Precision@3", 0), ("Recall@3", 0),
       ("MRR@5", 0), ("NDCG@5", 0), ("Precision@5", 0), ("Recall@5", 0),
       ("MRR@10", 0), ("NDCG@10", 0), ("Precision@10", 0), ("Recall@10", 0)] := by
  simp only [List.foldl_cons, List.foldl_nil,
    C8key_MRR_1, C8key_NDCG_1, C8key_Precision_1, C8key_Recall_1, C8key_MRR_3, C8key_NDCG_3, C8key_Precision_3, C8key_Recall_3, C8key_MRR_5, C8key_NDCG_5, C8key_Precision_5, C8key_Recall_5, C8key_MRR_10, C8key_NDCG_10, C8key_Precision_10, C8key_Recall_10, C8ins_0, C8ins_1, C8ins_2, C8ins_3, C8ins_4, C8ins_5, C8ins_6, C8ins_7, C8ins_8, C8ins_9, C8ins_10, C8ins_11, C8ins_12, C8ins_13, C8ins_14, C8ins_15]

theorem objAdd_slot_1 (v1 v2 v3 v4 v5 v6 v7 v8 v9 v10 v11 v12 v13 v14 v15 v16 w : ℝ) :
    objAdd
      [("MRR@1", v1), ("NDCG@1", v2), ("Precision@1", v3), ("Recall@1", v4),
       ("MRR@3", v5), ("NDCG@3", v6), ("Precision@3", v7), ("Recall@3", v8),
       ("MRR@5", v9), ("NDCG@5", v10), ("Precision@5", v11),
       ("Recall@5", v12), ("MRR@10", v13), ("NDCG@10", v14),
       ("Precision@10", v15), ("Recall@10", v16)]
      "MRR@1" w =
      [("MRR@1", v1 + w), ("NDCG@1", v2), ("Precision@1", v3), ("Recall@1", v4),
       ("MRR@3", v5), ("NDCG@3", v6), ("Precision@3", v7), ("Recall@3", v8),
       ("MRR@5", v9), ("NDCG@5", v10), ("Precision@5", v11),
       ("Recall@5", v12), ("MRR@10", v13), ("NDCG@10", v14),
       ("Precision@10", v15), ("Recall@10", v16)] := rfl

theorem objAdd_slot_2 (v1 v2 v3 v4 v5 v6 v7 v8 v9 v10 v11 v12 v13 v14 v15 v16 w : ℝ) :
    objAdd
      [("MRR@1", v1), ("NDCG@1", v2), ("Precision@1", v3), ("Recall@1", v4),
       ("MRR@3", v5), ("NDCG@3", v6), ("Precision@3", v7), ("Recall@3", v8),
       ("MRR@5", v9), ("NDCG@5", v10), ("Precision@5", v11),
       ("Recall@5", v12), ("MRR@10", v13), ("NDCG@10", v14),
       ("Precision@10", v15), ("Recall@10", v16)]
      "NDCG@1" w =
      [("MRR@1", v1), ("NDCG@1", v2 + w), ("Precision@1", v3), ("Recall@1", v4),
       ("MRR@3", v5), ("NDCG@3", v6), ("Precision@3", v7), ("Recall@3", v8),
       ("MRR@5", v9), ("NDCG@5", v10), ("Precision@5", v11),
       ("Recall@5", v12), ("MRR@10", v13), ("NDCG@10", v14),
       ("Precision@10", v15), ("Recall@10", v16)] := rfl

theorem objAdd_slot_3 (v1 v2 v3 v4 v5 v6 v7 v8 v9 v10 v11 v12 v13 v14 v15 v16 w : ℝ) :
    objAdd
      [("MRR@1", v1), ("NDCG@1", v2), ("Precision@1", v3), ("Recall@1", v4),
       ("MRR@3", v5), ("NDCG@3", v6), ("Precision@3", v7), ("Recall@3", v8),
       ("MRR@5", v9), ("NDCG@5", v10), ("Precision@5", v11),
       ("Recall@5", v12), ("MRR@10", v13), ("NDCG@10", v14),
       ("Precision@10", v15), ("Recall@10", v16)]
      "Precision@1" w =
      [("MRR@1", v1), ("NDCG@1", v2), ("Precision@1", v3 + w), ("Recall@1", v4),
       ("MRR@3", v5), ("NDCG@3", v6), ("Precision@3", v7), ("Recall@3", v8),
       ("MRR@5", v9), ("NDCG@5", v10), ("Precision@5", v11),
       ("Recall@5", v12), ("MRR@10", v13), ("NDCG@10", v14),
       ("Precision@10", v15), ("Recall@10", v16)] := rfl

theorem objAdd_slot_4 (v1 v2 v3 v4 v5 v6 v7 v8 v9 v10 v11 v12 v13 v14 v15 v16 w : ℝ) :
    objAdd
      [("MRR@1", v1), ("NDCG@1", v2), ("Precision@1", v3), ("Recall@1", v4),
       ("MRR@3", v5), ("NDCG@3", v6), ("Precision@3", v7), ("Recall@3", v8),
       ("MRR@5", v9), ("NDCG@5", v10), ("Precision@5", v11),
       ("Recall@5", v12), ("MRR@10", v13), ("NDCG@10", v14),
       ("Precision@10", v15), ("Recall@10", v16)]
      "Recall@1" w =
      [("MRR@1", v1), ("NDCG@1", v2), ("Precision@1", v3), ("Recall@1", v4 + w),
       ("MRR@3", v5), ("NDCG@3", v6), ("Precision@3", v7), ("Recall@3", v8),
       ("MRR@5", v9), ("NDCG@5", v10), ("Precision@5", v11),
       ("Recall@5", v12), ("MRR@10", v13), ("NDCG@10", v14),
       ("Precision@10", v15), ("Recall@10", v16)] := rfl

theorem objAdd_slot_5 (v1 v2 v3 v4 v5 v6 v7 v8 v9 v10 v11 v12 v13 v14 v15 v16 w : ℝ) :
    objAdd
      [("MRR@1", v1), ("NDCG@1", v2), ("Precision@1", v3), ("Recall@1", v4),
       ("MRR@3", v5), ("NDCG@3", v6), ("Precision@3", v7), ("Recall@3", v8),
       ("MRR@5", v9), ("NDCG@5", v10), ("Precision@5", v11),
       ("Recall@5", v12), ("MRR@10", v13), ("NDCG@10", v14),
       ("Precision@10", v15), ("Recall@10", v16)]
      "MRR@3" w =
      [("MRR@1", v1), ("NDCG@1", v2), ("Precision@1", v3), ("Recall@1", v4),
       ("MRR@3", v5 + w), ("NDCG@3", v6), ("Precision@3", v7),
       ("Recall@3", v8), ("MRR@5", v9), ("NDCG@5", v10),
       ("Precision@5", v11), ("Recall@5", v12), ("MRR@10", v13),
       ("NDCG@10", v14), ("Precision@10", v15), ("Recall@10", v16)] := rfl

theorem objAdd_slot_6 (v1 v2 v3 v4 v5 v6 v7 v8 v9 v10 v11 v12 v13 v14 v15 v16 w : ℝ) :
    objAdd
      [("MRR@1", v1), ("NDCG@1", v2), ("Precision@1", v3), ("Recall@1", v4),
       ("MRR@3", v5), ("NDCG@3", v6), ("Precision@3", v7), ("Recall@3", v8),
       ("MRR@5", v9), ("NDCG@5", v10), ("Precision@5", v11),
       ("Recall@5", v12), ("MRR@10", v13), ("NDCG@10", v14),
       ("Precision@10", v15), ("Recall@10", v16)]
      "NDCG@3" w =
      [("MRR@1", v1), ("NDCG@1", v2), ("Precision@1", v3), ("Recall@1", v4),
       ("MRR@3", v5), ("NDCG@3", v6 + w), ("Precision@3", v7),
       ("Recall@3", v8), ("MRR@5", v9), ("NDCG@5", v10),
       ("Precision@5", v11), ("Recall@5", v12), ("MRR@10", v13),
       ("NDCG@10", v14), ("Precision@10", v15), ("Recall@10", v16)] := rfl

theorem objAdd_slot_7 (v1 v2 v3 v4 v5 v6 v7 v8 v9 v10 v11 v12 v13 v14 v15 v16 w : ℝ) :
    objAdd
      [("MRR@1", v1), ("NDCG@1", v2), ("Precision@1", v3), ("Recall@1", v4),
       ("MRR@3", v5), ("NDCG@3", v6), ("Precision@3", v7), ("Recall@3", v8),
       ("MRR@5", v9), ("NDCG@5", v10), ("Precision@5", v11),
       ("Recall@5", v12), ("MRR@10", v13), ("NDCG@10", v14),
       ("Precision@10", v15), ("Recall@10", v16)]
      "Precision@3" w =
      [("MRR@1", v1), ("NDCG@1", v2), ("Precision@1", v3), ("Recall@1", v4),
       ("MRR@3", v5), ("NDCG@3", v6), ("Precision@3", v7 + w),
       ("Recall@3", v8), ("MRR@5", v9), ("NDCG@5", v10),
       ("Precision@5", v11), ("Recall@5", v12), ("MRR@10", v13),
       ("NDCG@10", v14), ("Precision@10", v15), ("Recall@10", v16)] := rfl

theorem objAdd_slot_8 (v1 v2 v3 v4 v5 v6 v7 v8 v9 v10 v11 v12 v13 v14 v15 v16 w : ℝ) :
    objAdd
      [("MRR@1", v1), ("NDCG@1", v2), ("Precision@1", v3), ("Recall@1", v4),
       ("MRR@3", v5), ("NDCG@3", v6), ("Precision@3", v7), ("Recall@3", v8),
       ("MRR@5", v9), ("NDCG@5", v10), ("Precision@5", v11),
       ("Recall@5", v12), ("MRR@10", v13), ("NDCG@10", v14),
       ("Precision@10", v15), ("Recall@10", v16)]
      "Recall@3" w =
      [("MRR@1", v1), ("NDCG@1", v2), ("Precision@1", v3), ("Recall@1", v4),
       ("MRR@3", v5), ("NDCG@3", v6), ("Precision@3", v7),
       ("Recall@3", v8 + w), ("MRR@5", v9), ("NDCG@5", v10),
       ("Precision@5", v11), ("Recall@5", v12), ("MRR@10", v13),
       ("NDCG@10", v14), ("Precision@10", v15), ("Recall@10", v16)] := rfl

theorem objAdd_slot_9 (v1 v2 v3 v4 v5 v6 v7 v8 v9 v10 v11 v12 v13 v14 v15 v16 w : ℝ) :
    objAdd
      [("MRR@1", v1), ("NDCG@1", v2), ("Precision@1", v3), ("Recall@1", v4),
       ("MRR@3", v5), ("NDCG@3", v6), ("Precision@3", v7), ("Recall@3", v8),
       ("MRR@5", v9), ("NDCG@5", v10), ("Precision@5", v11),
       ("Recall@5", v12), ("MRR@10", v13), ("NDCG@10", v14),
       ("Precision@10", v15), ("Recall@10", v16)]
      "MRR@5" w =
      [("MRR@1", v1), ("NDCG@1", v2), ("Precision@1", v3), ("Recall@1", v4),
       ("MRR@3", v5), ("NDCG@3", v6), ("Precision@3", v7), ("Recall@3", v8),
       ("MRR@5", v9 + w), ("NDCG@5", v10), ("Precision@5", v11),
       ("Recall@5", v12), ("MRR@10", v13), ("NDCG@10", v14),
       ("Precision@10", v15), ("Recall@10", v16)] := rfl

theorem objAdd_slot_10 (v1 v2 v3 v4 v5 v6 v7 v8 v9 v10 v11 v12 v13 v14 v15 v16 w : ℝ) :
    objAdd
      [("MRR@1", v1), ("NDCG@1", v2), ("Precision@1", v3), ("Recall@1", v4),
       ("MRR@3", v5), ("NDCG@3", v6), ("Precision@3", v7), ("Recall@3", v8),
       ("MRR@5", v9), ("NDCG@5", v10), ("Precision@5", v11),
       ("Recall@5", v12), ("MRR@10", v13), ("NDCG@10", v14),
       ("Precision@10", v15), ("Recall@10", v16)]
      "NDCG@5" w =
      [("MRR@1", v1), ("NDCG@1", v2), ("Precision@1", v3), ("Recall@1", v4),
       ("MRR@3", v5), ("NDCG@3", v6), ("Precision@3", v7), ("Recall@3", v8),
       ("MRR@5", v9), ("NDCG@5", v10 + w), ("Precision@5", v11),
       ("Recall@5", v12), ("MRR@10", v13), ("NDCG@10", v14),
       ("Precision@10", v15), ("Recall@10", v16)] := rfl

theorem objAdd_slot_11 (v1 v2 v3 v4 v5 v6 v7 v8 v9 v10 v11 v12 v13 v14 v15 v16 w : ℝ) :
    objAdd
      [("MRR@1", v1), ("NDCG@1", v2), ("Precision@1", v3), ("Recall@1", v4),
       ("MRR@3", v5), ("NDCG@3", v6), ("Precision@3", v7), ("Recall@3", v8),
       ("MRR@5", v9), ("NDCG@5", v10), ("Precision@5", v11),
       ("Recall@5", v12), ("MRR@10", v13), ("NDCG@10", v14),
       ("Precision@10", v15), ("Recall@10", v16)]
      "Precision@5" w =
      [("MRR@1", v1), ("NDCG@1", v2), ("Precision@1", v3), ("Recall@1", v4),
       ("MRR@3", v5), ("NDCG@3", v6), ("Precision@3", v7), ("Recall@3", v8),
       ("MRR@5", v9), ("NDCG@5", v10), ("Precision@5", v11 + w),
       ("Recall@5", v12), ("MRR@10", v13), ("NDCG@10", v14),
       ("Precision@10", v15), ("Recall@10", v16)] := rfl

theorem objAdd_slot_12 (v1 v2 v3 v4 v5 v6 v7 v8 v9 v10 v11 v12 v13 v14 v15 v16 w : ℝ) :
    objAdd
      [("MRR@1", v1), ("NDCG@1", v2), ("Precision@1", v3), ("Recall@1", v4),
       ("MRR@3", v5), ("NDCG@3", v6), ("Precision@3", v7), ("Recall@3", v8),
       ("MRR@5", v9), ("NDCG@5", v10), ("Precision@5", v11),
       ("Recall@5", v12), ("MRR@10", v13), ("NDCG@10", v14),
       ("Precision@10", v15), ("Recall@10", v16)]
      "Recall@5" w =
      [("MRR@1", v1), ("NDCG@1", v2), ("Precision@1", v3), ("Recall@1", v4),
       ("MRR@3", v5), ("NDCG@3", v6), ("Precision@3", v7), ("Recall@3", v8),
       ("MRR@5", v9), ("NDCG@5", v10), ("Precision@5", v11),
       ("Recall@5", v12 + w), ("MRR@10", v13), ("NDCG@10", v14),
       ("Precision@10", v15), ("Recall@10", v16)] := rfl

theorem objAdd_slot_13 (v1 v2 v3 v4 v5 v6 v7 v8 v9 v10 v11 v12 v13 v14 v15 v16 w : ℝ) :
    objAdd
      [("MRR@1", v1), ("NDCG@1", v2), ("Precision@1", v3), ("Recall@1", v4),
       ("MRR@3", v5), ("NDCG@3", v6), ("Precision@3", v7), ("Recall@3", v8),
       ("MRR@5", v9), ("NDCG@5", v10), ("Precision@5", v11),
       ("Recall@5", v12), ("MRR@10", v13), ("NDCG@10", v14),
       ("Precision@10", v15), ("Recall@10", v16)]
      "MRR@10" w =
      [("MRR@1", v1), ("NDCG@1", v2), ("Precision@1", v3), ("Recall@1", v4),
       ("MRR@3", v5), ("NDCG@3", v6), ("Precision@3", v7), ("Recall@3", v8),
       ("MRR@5", v9), ("NDCG@5", v10), ("Precision@5", v11),
       ("Recall@5", v12), ("MRR@10", v13 + w), ("NDCG@10", v14),
       ("Precision@10", v15), ("Recall@10", v16)] := rfl

theorem objAdd_slot_14 (v1 v2 v3 v4 v5 v6 v7 v8 v9 v10 v11 v12 v13 v14 v15 v16 w : ℝ) :
    objAdd
      [("MRR@1", v1), ("NDCG@1", v2), ("Precision@1", v3), ("Recall@1", v4),
       ("MRR@3", v5), ("NDCG@3", v6), ("Precision@3", v7), ("Recall@3", v8),
       ("MRR@5", v9), ("NDCG@5", v10), ("Precision@5", v11),
       ("Recall@5", v12), ("MRR@10", v13), ("NDCG@10", v14),
       ("Precision@10", v15), ("Recall@10", v16)]
      "NDCG@10" w =
      [("MRR@1", v1), ("NDCG@1", v2), ("Precision@1", v3), ("Recall@1", v4),
       ("MRR@3", v5), ("NDCG@3", v6), ("Precision@3", v7), ("Recall@3", v8),
       ("MRR@5", v9), ("NDCG@5", v10), ("Precision@5", v11),
       ("Recall@5", v12), ("MRR@10", v13), ("NDCG@10", v14 + w),
       ("Precision@10", v15), ("Recall@10", v16)] := rfl

theorem objAdd_slot_15 (v1 v2 v3 v4 v5 v6 v7 v8 v9 v10 v11 v12 v13 v14 v15 v16 w : ℝ) :
    objAdd
      [("MRR@1", v1), ("NDCG@1", v2), ("Precision@1", v3), ("Recall@1", v4),
       ("MRR@3", v5), ("NDCG@3", v6), ("Precision@3", v7), ("Recall@3", v8),
       ("MRR@5", v9), ("NDCG@5", v10), ("Precision@5", v11),
       ("Recall@5", v12), ("MRR@10", v13), ("NDCG@10", v14),
       ("Precision@10", v15), ("Recall@10", v16)]
      "Precision@10" w =
      [("MRR@1", v1), ("NDCG@1", v2), ("Precision@1", v3), ("Recall@1", v4),
       ("MRR@3", v5), ("NDCG@3", v6), ("Precision@3", v7), ("Recall@3", v8),
       ("MRR@5", v9), ("NDCG@5", v10), ("Precision@5", v11),
       ("Recall@5", v12), ("MRR@10", v13), ("NDCG@10", v14),
       ("Precision@10", v15 + w), ("Recall@10", v16)] := rfl

theorem objAdd_slot_16 (v1 v2 v3 v4 v5 v6 v7 v8 v9 v10 v11 v12 v13 v14 v15 v16 w : ℝ) :
    objAdd
      [("MRR@1", v1), ("NDCG@1", v2), ("Precision@1", v3), ("Recall@1", v4),
       ("MRR@3", v5), ("NDCG@3", v6), ("Precision@3", v7), ("Recall@3", v8),
       ("MRR@5", v9), ("NDCG@5", v10), ("Precision@5", v11),
       ("Recall@5", v12), ("MRR@10", v13), ("NDCG@10", v14),
       ("Precision@10", v15), ("Recall@10", v16)]
      "Recall@10" w =
      [("MRR@1", v1), ("NDCG@1", v2), ("Precision@1", v3), ("Recall@1", v4),
       ("MRR@3", v5), ("NDCG@3", v6), ("Precision@3", v7), ("Recall@3", v8),
       ("MRR@5", v9), ("NDCG@5", v10), ("Precision@5", v11),
       ("Recall@5", v12), ("MRR@10", v13), ("NDCG@10", v14),
       ("Precision@10", v15), ("Recall@10", v16 + w)] := rfl

theorem metricSums_step (r : QueryResult) (v1 v2 v3 v4 v5 v6 v7 v8 v9 v10 v11 v12 v13 v14 v15 v16 : ℝ) :
    (calculateAllMetrics r.rankedPassages [1, 3, 5, 10]).foldl
      (fun s p => objAdd s p.1 p.2)
      [("MRR@1", v1), ("NDCG@1", v2), ("Precision@1", v3), ("Recall@1", v4),
       ("MRR@3", v5), ("NDCG@3", v6), ("Precision@3", v7), ("Recall@3", v8),
       ("MRR@5", v9), ("NDCG@5", v10), ("Precision@5", v11),
       ("Recall@5", v12), ("MRR@10", v13), ("NDCG@10", v14),
       ("Precision@10", v15), ("Recall@10", v16)] =
      [("MRR@1", v1 + calculateMRR r.rankedPassages 1),
       ("NDCG@1", v2 + calculateNDCG r.rankedPassages 1),
       ("Precision@1", v3 + calculatePrecisionAtK r.rankedPassages 1),
       ("Recall@1", v4 + calculateRecallAtK r.rankedPassages 1),
       ("MRR@3", v5 + calculateMRR r.rankedPassages 3),
       ("NDCG@3", v6 + calculateNDCG r.rankedPassages 3),
       ("Precision@3", v7 + calculatePrecisionAtK r.rankedPassages 3),
       ("Recall@3", v8 + calculateRecallAtK r.rankedPassages 3),
       ("MRR@5", v9 + calculateMRR r.rankedPassages 5),
       ("NDCG@5", v10 + calculateNDCG r.rankedPassages 5),
       ("Precision@5", v11 + calculatePrecisionAtK r.rankedPassages 5),
       ("Recall@5", v12 + calculateRecallAtK r.rankedPassages 5),
       ("MRR@10", v13 + calculateMRR r.rankedPassages 10),
       ("NDCG@10", v14 + calculateNDCG r.rankedPassages 10),
       ("Precision@10", v15 + calculatePrecisionAtK r.rankedPassages 10),
       ("Recall@10", v16 + calculateRecallAtK r.rankedPassages 10)] := by
  rw [calculateAllMetrics_default]
  simp only [List.foldl_cons, List.foldl_nil, objAdd_slot_1, objAdd_slot_2, objAdd_slot_3, objAdd_slot_4, objAdd_slot_5, objAdd_slot_6, objAdd_slot_7, objAdd_slot_8, objAdd_slot_9, objAdd_slot_10, objAdd_slot_11, objAdd_slot_12, objAdd_slot_13, objAdd_slot_14, objAdd_slot_15, objAdd_slot_16]

theorem metricSums_fold (valid : List QueryResult) : ∀ (v1 v2 v3 v4 v5 v6 v7 v8 v9 v10 v11 v12 v13 v14 v15 v16 : ℝ),
    valid.foldl
      (fun sums r =>
        (calculateAllMetrics r.rankedPassages [1, 3, 5, 10]).foldl
          (fun s p => objAdd s p.1 p.2) sums)
      [("MRR@1", v1), ("NDCG@1", v2), ("Precision@1", v3), ("Recall@1", v4),
       ("MRR@3", v5), ("NDCG@3", v6), ("Precision@3", v7), ("Recall@3", v8),
       ("MRR@5", v9), ("NDCG@5", v10), ("Precision@5", v11),
       ("Recall@5", v12), ("MRR@10", v13), ("NDCG@10", v14),
       ("Precision@10", v15), ("Recall@10", v16)] =
      [("MRR@1", v1 + (valid.map (fun r => calculateMRR r.rankedPassages 1)).sum),
       ("NDCG@1", v2 + (valid.map (fun r => calculateNDCG r.rankedPassages 1)).sum),
       ("Precision@1", v3 + (valid.map (fun r => calculatePrecisionAtK r.rankedPassages 1)).sum),
       ("Recall@1", v4 + (valid.map (fun r => calculateRecallAtK r.rankedPassages 1)).sum),
       ("MRR@3", v5 + (valid.map (fun r => calculateMRR r.rankedPassages 3)).sum),
       ("NDCG@3", v6 + (valid.map (fun r => calculateNDCG r.rankedPassages 3)).sum),
       ("Precision@3", v7 + (valid.map (fun r => calculatePrecisionAtK r.rankedPassages 3)).sum),
       ("Recall@3", v8 + (valid.map (fun r => calculateRecallAtK r.rankedPassages 3)).sum),
       ("MRR@5", v9 + (valid.map (fun r => calculateMRR r.rankedPassages 5)).sum),
       ("NDCG@5", v10 + (valid.map (fun r => calculateNDCG r.rankedPassages 5)).sum),
       ("Precision@5", v11 + (valid.map (fun r => calculatePrecisionAtK r.rankedPassages 5)).sum),
       ("Recall@5", v12 + (valid.map (fun r => calculateRecallAtK r.rankedPassages 5)).sum),
       ("MRR@10", v13 + (valid.map (fun r => calculateMRR r.rankedPassages 10)).sum),
       ("NDCG@10", v14 + (valid.map (fun r => calculateNDCG r.rankedPassages 10)).sum),
       ("Precision@10", v15 + (valid.map (fun r => calculatePrecisionAtK r.rankedPassages 10)).sum),
       ("Recall@10", v16 + (valid.map (fun r => calculateRecallAtK r.rankedPassages 10)).sum)] := by
  induction valid with
  | nil =>
      intro v1 v2 v3 v4 v5 v6 v7 v8 v9 v10 v11 v12 v13 v14 v15 v16
      simp
  | cons r rest ih =>
      intro v1 v2 v3 v4 v5 v6 v7 v8 v9 v10 v11 v12 v13 v14 v15 v16
      rw [List.foldl_cons, metricSums_step, ih]
      simp [add_assoc]

theorem C8insdiv_0 (x c : ℝ) :
    objInsert
      ([] : List (String × ℝ))
      "MRR@1" (x / c) =
      [("MRR@1", x / c)] := rfl

theorem C8insdiv_1 (v1 x c : ℝ) :
    objInsert
      [("MRR@1", v1 / c)]
      "NDCG@1" (x / c) =
      [("MRR@1", v1 / c), ("NDCG@1", x / c)] := rfl

theorem C8insdiv_2 (v1 v2 x c : ℝ) :
    objInsert
      [("MRR@1", v1 / c), ("NDCG@1", v2 / c)]
      "Precision@1" (x / c) =
      [("MRR@1", v1 / c), ("NDCG@1", v2 / c), ("Precision@1", x / c)] := rfl

theorem C8insdiv_3 (v1 v2 v3 x c : ℝ) :
    objInsert
      [("MRR@1", v1 / c), ("NDCG@1", v2 / c), ("Precision@1", v3 / c)]
      "Recall@1" (x / c) =
      [("MRR@1", v1 / c), ("NDCG@1", v2 / c), ("Precision@1", v3 / c),
       ("Recall@1", x / c)] := rfl

theorem C8insdiv_4 (v1 v2 v3 v4 x c : ℝ) :
    objInsert
      [("MRR@1", v1 / c), ("NDCG@1", v2 / c), ("Precision@1", v3 / c),
       ("Recall@1", v4 / c)]
      "MRR@3" (x / c) =
      [("MRR@1", v1 / c), ("NDCG@1", v2 / c), ("Precision@1", v3 / c),
       ("Recall@1", v4 / c), ("MRR@3", x / c)] := rfl

theorem C8insdiv_5 (v1 v2 v3 v4 v5 x c : ℝ) :
    objInsert
      [("MRR@1", v1 / c), ("NDCG@1", v2 / c), ("Precision@1", v3 / c),
       ("Recall@1", v4 / c), ("MRR@3", v5 / c)]
      "NDCG@3" (x / c) =
      [("MRR@1", v1 / c), ("NDCG@1", v2 / c), ("Precision@1", v3 / c),
       ("Recall@1", v4 / c), ("MRR@3", v5 / c), ("NDCG@3", x / c)] := rfl

theorem C8insdiv_6 (v1 v2 v3 v4 v5 v6 x c : ℝ) :
    objInsert
      [("MRR@1", v1 / c), ("NDCG@1", v2 / c), ("Precision@1", v3 / c),
       ("Recall@1", v4 / c), ("MRR@3", v5 / c), ("NDCG@3", v6 / c)]
      "Precision@3" (x / c) =
      [("MRR@1", v1 / c), ("NDCG@1", v2 / c), ("Precision@1", v3 / c),
       ("Recall@1", v4 / c), ("MRR@3", v5 / c), ("NDCG@3", v6 / c),
       ("Precision@3", x / c)] := rfl

theorem C8insdiv_7 (v1 v2 v3 v4 v5 v6 v7 x c : ℝ) :
    objInsert
      [("MRR@1", v1 / c), ("NDCG@1", v2 / c), ("Precision@1", v3 / c),
       ("Recall@1", v4 / c), ("MRR@3", v5 / c), ("NDCG@3", v6 / c),
       ("Precision@3", v7 / c)]
      "Recall@3" (x / c) =
      [("MRR@1", v1 / c), ("NDCG@1", v2 / c), ("Precision@1", v3 / c),
       ("Recall@1", v4 / c), ("MRR@3", v5 / c), ("NDCG@3", v6 / c),
       ("Precision@3", v7 / c), ("Recall@3", x / c)] := rfl

theorem C8insdiv_8 (v1 v2 v3 v4 v5 v6 v7 v8 x c : ℝ) :
    objInsert
      [("MRR@1", v1 / c), ("NDCG@1", v2 / c), ("Precision@1", v3 / c),
       ("Recall@1", v4 / c), ("MRR@3", v5 / c), ("NDCG@3", v6 / c),
       ("Precision@3", v7 / c), ("Recall@3", v8 / c)]
      "MRR@5" (x / c) =
      [("MRR@1", v1 / c), ("NDCG@1", v2 / c), ("Precision@1", v3 / c),
       ("Recall@1", v4 / c), ("MRR@3", v5 / c), ("NDCG@3", v6 / c),
       ("Precision@3", v7 / c), ("Recall@3", v8 / c), ("MRR@5", x / c)] := rfl

theorem C8insdiv_9 (v1 v2 v3 v4 v5 v6 v7 v8 v9 x c : ℝ) :
    objInsert
      [("MRR@1", v1 / c), ("NDCG@1", v2 / c), ("Precision@1", v3 / c),
       ("Recall@1", v4 / c), ("MRR@3", v5 / c), ("NDCG@3", v6 / c),
       ("Precision@3", v7 / c), ("Recall@3", v8 / c), ("MRR@5", v9 / c)]
      "NDCG@5" (x / c) =
      [("MRR@1", v1 / c), ("NDCG@1", v2 / c), ("Precision@1", v3 / c),
       ("Recall@1", v4 / c), ("MRR@3", v5 / c), ("NDCG@3", v6 / c),
       ("Precision@3", v7 / c), ("Recall@3", v8 / c), ("MRR@5", v9 / c),
       ("NDCG@5", x / c)] := rfl

theorem C8insdiv_10 (v1 v2 v3 v4 v5 v6 v7 v8 v9 v10 x c : ℝ) :
    objInsert
      [("MRR@1", v1 / c), ("NDCG@1", v2 / c), ("Precision@1", v3 / c),
       ("Recall@1", v4 / c), ("MRR@3", v5 / c), ("NDCG@3", v6 / c),
       ("Precision@3", v7 / c), ("Recall@3", v8 / c), ("MRR@5", v9 / c),
       ("NDCG@5", v10 / c)]
      "Precision@5" (x / c) =
      [("MRR@1", v1 / c), ("NDCG@1", v2 / c), ("Precision@1", v3 / c),
       ("Recall@1", v4 / c), ("MRR@3", v5 / c), ("NDCG@3", v6 / c),
       ("Precision@3", v7 / c), ("Recall@3", v8 / c), ("MRR@5", v9 / c),
       ("NDCG@5", v10 / c), ("Precision@5", x / c)] := rfl

theorem C8insdiv_11 (v1 v2 v3 v4 v5 v6 v7 v8 v9 v10 v11 x c : ℝ) :
    objInsert
      [("MRR@1", v1 / c), ("NDCG@1", v2 / c), ("Precision@1", v3 / c),
       ("Recall@1", v4 / c), ("MRR@3", v5 / c), ("NDCG@3", v6 / c),
       ("Precision@3", v7 / c), ("Recall@3", v8 / c), ("MRR@5", v9 / c),
       ("NDCG@5", v10 / c), ("Precision@5", v11 / c)]
      "Recall@5" (x / c) =
      [("MRR@1", v1 / c), ("NDCG@1", v2 / c), ("Precision@1", v3 / c),
       ("Recall@1", v4 / c), ("MRR@3", v5 / c), ("NDCG@3", v6 / c),
       ("Precision@3", v7 / c), ("Recall@3", v8 / c), ("MRR@5", v9 / c),
       ("NDCG@5", v10 / c), ("Precision@5", v11 / c), ("Recall@5", x / c)] := rfl

theorem C8insdiv_12 (v1 v2 v3 v4 v5 v6 v7 v8 v9 v10 v11 v12 x c : ℝ) :
    objInsert
      [("MRR@1", v1 / c), ("NDCG@1", v2 / c), ("Precision@1", v3 / c),
       ("Recall@1", v4 / c), ("MRR@3", v5 / c), ("NDCG@3", v6 / c),
       ("Precision@3", v7 / c), ("Recall@3", v8 / c), ("MRR@5", v9 / c),
       ("NDCG@5", v10 / c), ("Precision@5", v11 / c), ("Recall@5", v12 / c)]
      "MRR@10" (x / c) =
      [("MRR@1", v1 / c), ("NDCG@1", v2 / c), ("Precision@1", v3 / c),
       ("Recall@1", v4 / c), ("MRR@3", v5 / c), ("NDCG@3", v6 / c),
       ("Precision@3", v7 / c), ("Recall@3", v8 / c), ("MRR@5", v9 / c),
       ("NDCG@5", v10 / c), ("Precision@5", v11 / c), ("Recall@5", v12 / c),
       ("MRR@10", x / c)] := rfl

theorem C8insdiv_13 (v1 v2 v3 v4 v5 v6 v7 v8 v9 v10 v11 v12 v13 x c : ℝ) :
    objInsert
      [("MRR@1", v1 / c), ("NDCG@1", v2 / c), ("Precision@1", v3 / c),
       ("Recall@1", v4 / c), ("MRR@3", v5 / c), ("NDCG@3", v6 / c),
       ("Precision@3", v7 / c), ("Recall@3", v8 / c), ("MRR@5", v9 / c),
       ("NDCG@5", v10 / c), ("Precision@5", v11 / c), ("Recall@5", v12 / c),
       ("MRR@10", v13 / c)]
      "NDCG@10" (x / c) =
      [("MRR@1", v1 / c), ("NDCG@1", v2 / c), ("Precision@1", v3 / c),
       ("Recall@1", v4 / c), ("MRR@3", v5 / c), ("NDCG@3", v6 / c),
       ("Precision@3", v7 / c), ("Recall@3", v8 / c), ("MRR@5", v9 / c),
       ("NDCG@5", v10 / c), ("Precision@5", v11 / c), ("Recall@5", v12 / c),
       ("MRR@10", v13 / c), ("NDCG@10", x / c)] := rfl

theorem C8insdiv_14 (v1 v2 v3 v4 v5 v6 v7 v8 v9 v10 v11 v12 v13 v14 x c : ℝ) :
    objInsert
      [("MRR@1", v1 / c), ("NDCG@1", v2 / c), ("Precision@1", v3 / c),
       ("Recall@1", v4 / c), ("MRR@3", v5 / c), ("NDCG@3", v6 / c),
       ("Precision@3", v7 / c), ("Recall@3", v8 / c), ("MRR@5", v9 / c),
       ("NDCG@5", v10 / c), ("Precision@5", v11 / c), ("Recall@5", v12 / c),
       ("MRR@10", v13 / c), ("NDCG@10", v14 / c)]
      "Precision@10" (x / c) =
      [("MRR@1", v1 / c), ("NDCG@1", v2 / c), ("Precision@1", v3 / c),
       ("Recall@1", v4 / c), ("MRR@3", v5 / c), ("NDCG@3", v6 / c),
       ("Precision@3", v7 / c), ("Recall@3", v8 / c), ("MRR@5", v9 / c),
       ("NDCG@5", v10 / c), ("Precision@5", v11 / c), ("Recall@5", v12 / c),
       ("MRR@10", v13 / c), ("NDCG@10", v14 / c), ("Precision@10", x / c)] := rfl

theorem C8insdiv_15 (v1 v2 v3 v4 v5 v6 v7 v8 v9 v10 v11 v12 v13 v14 v15 x c : ℝ) :
    objInsert
      [("MRR@1", v1 / c), ("NDCG@1", v2 / c), ("Precision@1", v3 / c),
       ("Recall@1", v4 / c), ("MRR@3", v5 / c), ("NDCG@3", v6 / c),
       ("Precision@3", v7 / c), ("Recall@3", v8 / c), ("MRR@5", v9 / c),
       ("NDCG@5", v10 / c), ("Precision@5", v11 / c), ("Recall@5", v12 / c),
       ("MRR@10", v13 / c), ("NDCG@10", v14 / c), ("Precision@10", v15 / c)]
      "Recall@10" (x / c) =
      [("MRR@1", v1 / c), ("NDCG@1", v2 / c), ("Precision@1", v3 / c),
       ("Recall@1", v4 / c), ("MRR@3", v5 / c), ("NDCG@3", v6 / c),
       ("Precision@3", v7 / c), ("Recall@3", v8 / c), ("MRR@5", v9 / c),
       ("NDCG@5", v10 / c), ("Precision@5", v11 / c), ("Recall@5", v12 / c),
       ("MRR@10", v13 / c), ("NDCG@10", v14 / c), ("Precision@10", v15 / c),
       ("Recall@10", x / c)] := rfl

theorem metricAvg_div (v1 v2 v3 v4 v5 v6 v7 v8 v9 v10 v11 v12 v13 v14 v15 v16 c : ℝ) :
    ([("MRR@1", v1), ("NDCG@1", v2), ("Precision@1", v3), ("Recall@1", v4),
       ("MRR@3", v5), ("NDCG@3", v6), ("Precision@3", v7), ("Recall@3", v8),
       ("MRR@5", v9), ("NDCG@5", v10), ("Precision@5", v11),
       ("Recall@5", v12), ("MRR@10", v13), ("NDCG@10", v14),
       ("Precision@10", v15), ("Recall@10", v16)]).foldl
      (fun m p => objInsert m p.1 (p.2 / c)) [] =
      [("MRR@1", v1 / c), ("NDCG@1", v2 / c), ("Precision@1", v3 / c),
       ("Recall@1", v4 / c), ("MRR@3", v5 / c), ("NDCG@3", v6 / c),
       ("Precision@3", v7 / c), ("Recall@3", v8 / c), ("MRR@5", v9 / c),
       ("NDCG@5", v10 / c), ("Precision@5", v11 / c), ("Recall@5", v12 / c),
       ("MRR@10", v13 / c), ("NDCG@10", v14 / c), ("Precision@10", v15 / c),
       ("Recall@10", v16 / c)] := by
  simp only [List.foldl_cons, List.foldl_nil, C8insdiv_0, C8insdiv_1, C8insdiv_2, C8insdiv_3, C8insdiv_4, C8insdiv_5, C8insdiv_6, C8insdiv_7, C8insdiv_8, C8insdiv_9, C8insdiv_10, C8insdiv_11, C8insdiv_12, C8insdiv_13, C8insdiv_14, C8insdiv_15]

/-- The arithmetic mean of each of the four metrics at each default
cutoff over the valid (non-errored) query results — the normal form of
the `metricSums`/`averageMetrics` computation of `calculateAverageMetrics`
(test-suite.js lines 181-204). -/
noncomputable def avgMetricsDefault (valid : List QueryResult) : List (String × ℝ) :=
  [
       ("MRR@1", (valid.map (fun r => calculateMRR r.rankedPassages 1)).sum / (valid.length : ℝ)),
       ("NDCG@1", (valid.map (fun r => calculateNDCG r.rankedPassages 1)).sum / (valid.length : ℝ)),
       ("Precision@1", (valid.map (fun r => calculatePrecisionAtK r.rankedPassages 1)).sum / (valid.length : ℝ)),
       ("Recall@1", (valid.map (fun r => calculateRecallAtK r.rankedPassages 1)).sum / (valid.length : ℝ)),
       ("MRR@3", (valid.map (fun r => calculateMRR r.rankedPassages 3)).sum / (valid.length : ℝ)),
       ("NDCG@3", (valid.map (fun r => calculateNDCG r.rankedPassages 3)).sum / (valid.length : ℝ)),
       ("Precision@3", (valid.map (fun r => calculatePrecisionAtK r.rankedPassages 3)).sum / (valid.length : ℝ)),
       ("Recall@3", (valid.map (fun r => calculateRecallAtK r.rankedPassages 3)).sum / (valid.length : ℝ)),
       ("MRR@5", (valid.map (fun r => calculateMRR r.rankedPassages 5)).sum / (valid.length : ℝ)),
       ("NDCG@5", (valid.map (fun r => calculateNDCG r.rankedPassages 5)).sum / (valid.length : ℝ)),
       ("Precision@5", (valid.map (fun r => calculatePrecisionAtK r.rankedPassages 5)).sum / (valid.length : ℝ)),
       ("Recall@5", (valid.map (fun r => calculateRecallAtK r.rankedPassages 5)).sum / (valid.length : ℝ)),
       ("MRR@10", (valid.map (fun r => calculateMRR r.rankedPassages 10)).sum / (valid.length : ℝ)),
       ("NDCG@10", (valid.map (fun r => calculateNDCG r.rankedPassages 10)).sum / (valid.length : ℝ)),
       ("Precision@10", (valid.map (fun r => calculatePrecisionAtK r.rankedPassages 10)).sum / (valid.length : ℝ)),
       ("Recall@10", (valid.map (fun r => calculateRecallAtK r.rankedPassages 10)).sum / (valid.length : ℝ))]

/-- C8 counterexample: `calculateAverageMetrics` on an EMPTY result list
returns the bare empty object `{}`, not the explicit
`no valid results` condition the claim asserts for that case (the
explicit condition is only produced when the list is non-empty and every
entry errored). -/
theorem C8_counterexample :
    calculateAverageMetrics [] [1, 3, 5, 10] = AvgResult.empty ∧
    AvgResult.empty ≠ AvgResult.noValid :=
  ⟨rfl, fun h => AvgResult.noConfusion h⟩

/-- C8 amended: on an empty list `calculateAverageMetrics` returns the
empty object; on a non-empty list whose entries all recorded an error it
returns the explicit no-valid-results condition (never NaN, an
exception, or a division by zero); with at least one valid result (shown
at the default cutoffs `[1, 3, 5, 10]`) it returns the arithmetic mean
of each metric over the valid results only, plus total/valid/error query
counts. -/
theorem C8_amended :
    (∀ kValues, calculateAverageMetrics [] kValues = .empty) ∧
    (∀ queryResults kValues, queryResults.length ≠ 0 →
      (queryResults.filter (fun r => !r.error)).length = 0 →
      calculateAverageMetrics queryResults kValues = .noValid) ∧
    (∀ queryResults, queryResults.length ≠ 0 →
      (queryResults.filter (fun r => !r.error)).length ≠ 0 →
      calculateAverageMetrics queryResults [1, 3, 5, 10] =
        .metrics (avgMetricsDefault (queryResults.filter (fun r => !r.error)))
          queryResults.length
          (queryResults.filter (fun r => !r.error)).length
          (queryResults.length -
            (queryResults.filter (fun r => !r.error)).length)) := by
  refine ⟨fun kValues => rfl, ?_, ?_⟩
  · intro rs kValues h1 h2
    simp only [calculateAverageMetrics]
    rw [if_neg h1, if_pos h2]
  · intro rs h1 h2
    simp only [calculateAverageMetrics]
    rw [if_neg h1, if_neg h2, metricSums_init_default, metricSums_fold, metricAvg_div]
    simp only [zero_add]
    rfl

/-- C8 witness: two query results, one valid and one errored, run
through `C8_amended`. -/
theorem C8_witness :
    (([⟨false, [true, false]⟩, ⟨true, []⟩] : List QueryResult).length ≠ 0) ∧
    ((([⟨false, [true, false]⟩, ⟨true, []⟩] : List QueryResult).filter
      (fun r => !r.error)).length ≠ 0) ∧
    calculateAverageMetrics ([⟨false, [true, false]⟩, ⟨true, []⟩] : List QueryResult)
        [1, 3, 5, 10] =
      .metrics (avgMetricsDefault
          (([⟨false, [true, false]⟩, ⟨true, []⟩] : List QueryResult).filter
            (fun r => !r.error)))
        ([⟨false, [true, false]⟩, ⟨true, []⟩] : List QueryResult).length
        (([⟨false, [true, false]⟩, ⟨true, []⟩] : List QueryResult).filter
          (fun r => !r.error)).length
        (([⟨false, [true, false]⟩, ⟨true, []⟩] : List QueryResult).length -
          (([⟨false, [true, false]⟩, ⟨true, []⟩] : List QueryResult).filter
            (fun r => !r.error)).length) :=
  ⟨by decide, by decide,
   C8_amended.2.2 [⟨false, [true, false]⟩, ⟨true, []⟩] (by decide) (by decide)⟩
